import Mathlib

/-!
# Verification of the 2D floorplan generation core (`backend/apps/scans/floorplan.py`)

This file gives a shallow embedding of the floorplan generation pipeline:
Python JSON-like values are modelled by the inductive type `Val`, Python
exceptions by `Except String`, and the `logger.warning` / `logger.error`
calls by an explicit list of `Log` events returned alongside each result.
Rational numbers stand in for Python floats (the pipeline performs only
field arithmetic, no rounding-sensitive operations enter any claim).

Modelling conventions, noted where they matter:
* iterating a non-list value raises immediately in the model; in Python,
  iterating a `str`/`dict` yields elements whose very first attribute access
  raises the exception instead, with the same caught-exception outcome for
  every extractor in this module;
* indexing is modelled for lists only (the code indexes `transform`,
  `dimensions`, `polygonCorners` and `center`, all documented as arrays);
* number-to-string conversion in SVG text (`ratRepr`) stands in for Python
  float repr; no claim inspects rendered coordinate text.
-/

namespace Floorplan

/-- Python/JSON-like runtime values: numbers (floats/ints as rationals),
strings, booleans, lists and string-keyed dicts. -/
inductive Val where
  | num  (q : Rat)
  | str  (s : String)
  | bool (b : Bool)
  | list (xs : List Val)
  | dict (kvs : List (String × Val))
deriving Repr

/-- Log events emitted through the module-level `logger`. -/
inductive Log where
  | warning (msg : String)
  | error (msg : String)
deriving Repr, DecidableEq

/-- Python truthiness (`bool(v)`), used by `if not floors`, `if dimensions`,
`if category`, `if floor_points`. -/
def pyTruthy : Val → Bool
  | .num q => q != 0
  | .str s => s.length != 0
  | .bool b => b
  | .list xs => !xs.isEmpty
  | .dict kvs => !kvs.isEmpty

/-- `v.get(k, dflt)`: dict lookup with default; raises `AttributeError`
when `v` is not a dict. -/
def pyGet (v : Val) (k : String) (dflt : Val) : Except String Val :=
  match v with
  | .dict kvs =>
    match kvs.find? (fun kv => kv.1 == k) with
    | some kv => .ok kv.2
    | none => .ok dflt
  | _ => .error "AttributeError: object has no attribute get"

/-- `for x in v`: iteration source; raises `TypeError` when `v` is not a
list (see the module comment for the str/dict iteration convention). -/
def pyIter (v : Val) : Except String (List Val) :=
  match v with
  | .list xs => .ok xs
  | _ => .error "TypeError: object is not iterable"

/-- `len(v)`: length of a sized value; raises `TypeError` otherwise. -/
def pyLen (v : Val) : Except String Nat :=
  match v with
  | .str s => .ok s.length
  | .list xs => .ok xs.length
  | .dict kvs => .ok kvs.length
  | _ => .error "TypeError: object has no len"

/-- `v[i]` for a non-negative index: raises `IndexError` when out of range,
`TypeError` when `v` is not a list. -/
def pyIndex (v : Val) (i : Nat) : Except String Val :=
  match v with
  | .list xs =>
    match xs.get? i with
    | some x => .ok x
    | none => .error "IndexError: index out of range"
  | _ => .error "TypeError: object is not subscriptable"

/-- Coercion of a value appearing in arithmetic or numeric comparison
(Python treats `bool` as an int there); raises `TypeError` otherwise. -/
def pyToRat : Val → Except String Rat
  | .num q => .ok q
  | .bool b => .ok (if b then 1 else 0)
  | _ => .error "TypeError: unsupported operand type"

/-- `int(q)` for a rational: truncation toward zero. -/
def pyInt (q : Rat) : Int :=
  if 0 ≤ q then q.floor else -((-q).floor)

/-- Number rendering inside SVG attribute text (stands in for Python float
repr; never inspected by a claim). -/
def ratRepr (q : Rat) : String := toString q

/-- An extracted door record as appended by `_extract_doors`
(`{'x':…, 'y':…, 'width':…, 'isOpen':…}`); field values are stored
unconverted, exactly as Python stores them. -/
structure DoorRec where
  x : Val
  y : Val
  width : Val
  isOpen : Val
deriving Repr

/-- An extracted window record as appended by `_extract_windows`. -/
structure WindowRec where
  x : Val
  y : Val
  width : Val
deriving Repr

/-- An extracted furniture/object record as appended by `_extract_objects`;
`type` is the first key of the `category` dict, or `"unknown"`. -/
structure ObjRec where
  x : Val
  y : Val
  width : Val
  depth : Val
  type : String
deriving Repr

/-- The conditional expression `dimensions[0] if dimensions else default`:
the per-kind default applies only when `dimensions` is falsy. -/
def widthFromDims (dimensions : Val) (dflt : Rat) : Except String Val :=
  if pyTruthy dimensions then pyIndex dimensions 0 else pure (.num dflt)

/-- The conditional expression
`dimensions[2] if len(dimensions) > 2 else 0.5` of `_extract_objects`. -/
def depthFromDims (dimensions : Val) (dimLen : Nat) : Except String Val :=
  if 2 < dimLen then pyIndex dimensions 2 else pure (.num (1/2))

/-- Body of one iteration of the `_extract_doors` loop: `none` when the
record is skipped by the `len(transform) >= 12` guard, an exception being
propagated to the surrounding `try`. -/
def extractOneDoor (door : Val) : Except String (Option DoorRec) := do
  let transform ← pyGet door "transform" (.list [])
  let n ← pyLen transform
  if 12 ≤ n then
    let x ← pyIndex transform 12
    let y ← pyIndex transform 13
    let dimensions ← pyGet door "dimensions" (.list [.num 0, .num 0, .num 0])
    let width ← widthFromDims dimensions (4/5)
    let category ← pyGet door "category" (.dict [])
    let catDoor ← pyGet category "door" (.dict [])
    let isOpen ← pyGet catDoor "isOpen" (.bool false)
    return some { x := x, y := y, width := width, isOpen := isOpen }
  else
    return none

/-- Body of one iteration of the `_extract_windows` loop. -/
def extractOneWindow (window : Val) : Except String (Option WindowRec) := do
  let transform ← pyGet window "transform" (.list [])
  let n ← pyLen transform
  if 12 ≤ n then
    let x ← pyIndex transform 12
    let y ← pyIndex transform 13
    let dimensions ← pyGet window "dimensions" (.list [.num 0, .num 0, .num 0])
    let width ← widthFromDims dimensions 1
    return some { x := x, y := y, width := width }
  else
    return none

/-- `next(iter(category.keys())) if category else 'unknown'`: first key of a
truthy dict, `'unknown'` on a falsy value, `AttributeError`/`TypeError` on a
truthy non-dict. -/
def firstCategoryKey (category : Val) : Except String String :=
  if pyTruthy category then
    match category with
    | .dict ((k, _) :: _) => .ok k
    | _ => .error "AttributeError: object has no attribute keys"
  else
    .ok "unknown"

/-- Body of one iteration of the `_extract_objects` loop. -/
def extractOneObject (obj : Val) : Except String (Option ObjRec) := do
  let transform ← pyGet obj "transform" (.list [])
  let n ← pyLen transform
  if 12 ≤ n then
    let x ← pyIndex transform 12
    let y ← pyIndex transform 13
    let dimensions ← pyGet obj "dimensions" (.list [.num 0, .num 0, .num 0])
    let width ← widthFromDims dimensions (1/2)
    let dimLen ← pyLen dimensions
    let depth ← depthFromDims dimensions dimLen
    let category ← pyGet obj "category" (.dict [])
    let objType ← firstCategoryKey category
    return some { x := x, y := y, width := width, depth := depth, type := objType }
  else
    return none

/-- The shared shape of the three extraction loops: records are appended to
the accumulator; an exception stops the loop, keeping what was already
appended (the Python `doors` list survives the `except` branch). -/
def extractLoop {α : Type} (f : Val → Except String (Option α)) :
    List Val → List α → List α × Option String
  | [], acc => (acc, none)
  | v :: vs, acc =>
    match f v with
    | .ok (some r) => extractLoop f vs (acc ++ [r])
    | .ok none => extractLoop f vs acc
    | .error e => (acc, some e)

/-- Shared wrapper of the three extractors: read the collection, iterate,
catch any exception and log it at error level, returning the records
accumulated so far. -/
def extractKind {α : Type} (key logMsg : String)
    (f : Val → Except String (Option α)) (roomplan_json : Val) :
    List α × List Log :=
  match pyGet roomplan_json key (.list []) with
  | .error e => ([], [.error (logMsg ++ e)])
  | .ok v =>
    match pyIter v with
    | .error e => ([], [.error (logMsg ++ e)])
    | .ok items =>
      match extractLoop f items [] with
      | (acc, none) => (acc, [])
      | (acc, some e) => (acc, [.error (logMsg ++ e)])

/-- `_extract_doors`. -/
def extract_doors (roomplan_json : Val) : List DoorRec × List Log :=
  extractKind "doors" "Error extracting doors: " extractOneDoor roomplan_json

/-- `_extract_windows`. -/
def extract_windows (roomplan_json : Val) : List WindowRec × List Log :=
  extractKind "windows" "Error extracting windows: " extractOneWindow roomplan_json

/-- `_extract_objects`. -/
def extract_objects (roomplan_json : Val) : List ObjRec × List Log :=
  extractKind "objects" "Error extracting objects: " extractOneObject roomplan_json

/-- One step of the `_extract_floor_boundary` loop: a corner contributes a
point exactly when `len(corner) >= 2`. -/
def cornerPoint (corner : Val) : Except String (Option (Val × Val)) := do
  let n ← pyLen corner
  if 2 ≤ n then
    let x ← pyIndex corner 0
    let y ← pyIndex corner 1
    return some (x, y)
  else
    return none

/-- The `try` body of `_extract_floor_boundary`. -/
def floorBoundaryBody (roomplan_json : Val) : Except String (List (Val × Val)) := do
  let floors ← pyGet roomplan_json "floors" (.list [])
  if !pyTruthy floors then
    return []
  else
    let floor ← pyIndex floors 0
    let polygon_corners ← pyGet floor "polygonCorners" (.list [])
    let corners ← pyIter polygon_corners
    let pts ← corners.foldlM (fun acc c => do
      match ← cornerPoint c with
      | some p => pure (acc ++ [p])
      | none => pure acc) []
    return pts

/-- `_extract_floor_boundary`: unlike the other extractors, its `except`
branch discards the partially built list and returns `[]`. -/
def extract_floor_boundary (roomplan_json : Val) : List (Val × Val) × List Log :=
  match floorBoundaryBody roomplan_json with
  | .ok pts => (pts, [])
  | .error e => ([], [.error ("Error extracting floor boundary: " ++ e)])

/-- `min(x :: xs)`: Python `min` of a non-empty list, folded pairwise. -/
def pyminList (x : Rat) (xs : List Rat) : Rat := xs.foldl min x

/-- `max(x :: xs)`: Python `max` of a non-empty list, folded pairwise. -/
def pymaxList (x : Rat) (xs : List Rat) : Rat := xs.foldl max x

/-- `_compute_bounding_box`. Coordinate values are coerced to rationals up
front; in Python a non-numeric coordinate raises inside `min`/`max` or in
the padding subtraction instead, with the same uncaught-`TypeError` outcome
(the function has no `try`; its caller's boundary catches). -/
def compute_bounding_box (floor_points : List (Val × Val)) (objects : List ObjRec) :
    Except String (Rat × Rat × Rat × Rat) :=
  if floor_points.isEmpty then
    .ok (0, 0, 5, 5)
  else do
    let xs ← (floor_points.map Prod.fst ++ objects.map ObjRec.x).mapM pyToRat
    let ys ← (floor_points.map Prod.snd ++ objects.map ObjRec.y).mapM pyToRat
    match xs, ys with
    | x0 :: xt, y0 :: yt =>
      let min_x := pyminList x0 xt
      let max_x := pymaxList x0 xt
      let min_y := pyminList y0 yt
      let max_y := pymaxList y0 yt
      let padding_x := (max_x - min_x) * (1/10)
      let padding_y := (max_y - min_y) * (1/10)
      .ok (min_x - padding_x, min_y - padding_y, max_x + padding_x, max_y + padding_y)
    | _, _ => .error "unreachable: floor_points is non-empty"

/-- Python `/` on numbers: raises `ZeroDivisionError` on a zero
denominator (divisions by non-zero literals elsewhere stay pure). -/
def pyDiv (a b : Rat) : Except String Rat :=
  if b = 0 then .error "ZeroDivisionError: division by zero" else .ok (a / b)

/-- `svg_height = int(800 * (height / width)) if width > 0 else 800`. -/
def svgHeightOf (width height : Rat) : Except String Int :=
  if 0 < width then do
    let r ← pyDiv height width
    pure (pyInt (800 * r))
  else pure 800

/-- `scale_x = svg_width / width if width > 0 else 1`. -/
def scaleXOf (width : Rat) : Except String Rat :=
  if 0 < width then pyDiv 800 width else pure 1

/-- `scale_y = svg_height / height if height > 0 else 1`. -/
def scaleYOf (svg_height : Int) (height : Rat) : Except String Rat :=
  if 0 < height then pyDiv (svg_height : Rat) height else pure 1

/-- `transform_point`: world coordinates to SVG pixel coordinates. -/
def transformPoint (min_x min_y scale_x scale_y x y : Rat) : Rat × Rat :=
  ((x - min_x) * scale_x, (y - min_y) * scale_y)

/-- Coercion of a value used where Python requires a `str` (the section
label's character loop). -/
def pyStrVal : Val → Except String String
  | .str s => .ok s
  | _ => .error "TypeError: expected str"

/-- The label comprehension: a space before each uppercase letter, then
`.strip()`. -/
def camelSpaced (s : String) : String :=
  (String.join (s.data.map (fun c =>
    if c.isUpper then String.mk [' ', c] else String.mk [c]))).trim

/-- Python `str.title()` over ASCII: an alphabetic character is uppercased
after a non-alphabetic character and lowercased otherwise. -/
def pyTitleAux : Bool → List Char → List Char
  | _, [] => []
  | prevAlpha, c :: cs =>
    (if c.isAlpha then (if prevAlpha then c.toLower else c.toUpper) else c)
      :: pyTitleAux c.isAlpha cs

/-- Python `str.title()`. -/
def pyTitle (s : String) : String := String.mk (pyTitleAux false s.data)

/-- Python `str.capitalize()`. -/
def pyCapitalize (s : String) : String :=
  match s.data with
  | [] => ""
  | c :: cs => String.mk (c.toUpper :: cs.map Char.toLower)

/-- One floor point's contribution to the polygon's `points` attribute. -/
def floorPointCoord (min_x min_y scale_x scale_y : Rat) (pr : Val × Val) :
    Except String String := do
  let x ← pyToRat pr.1
  let y ← pyToRat pr.2
  let p := transformPoint min_x min_y scale_x scale_y x y
  pure (ratRepr p.1 ++ "," ++ ratRepr p.2)

/-- The floor-polygon part of the SVG (emitted only when `floor_points` is
truthy). -/
def renderFloorPoly (min_x min_y scale_x scale_y : Rat)
    (floor_points : List (Val × Val)) : Except String (List String) :=
  if floor_points.isEmpty then pure []
  else do
    let coords ← floor_points.mapM (floorPointCoord min_x min_y scale_x scale_y)
    pure ["<polygon points=\"" ++ String.intercalate " " coords ++
      "\" fill=\"white\" stroke=\"#191919\" stroke-width=\"2\"/>"]

/-- One section's marker and label (skipped when `len(center) < 2`). -/
def renderSection (min_x min_y scale_x scale_y : Rat) (sec : Val) :
    Except String (List String) := do
  let center ← pyGet sec "center" (.list [])
  let n ← pyLen center
  if 2 ≤ n then
    let xv ← pyIndex center 0
    let yv ← pyIndex center 1
    let x ← pyToRat xv
    let y ← pyToRat yv
    let p := transformPoint min_x min_y scale_x scale_y x y
    let labelVal ← pyGet sec "label" (.str "room")
    let label ← pyStrVal labelVal
    let label_formatted := pyTitle (camelSpaced label)
    return ["<circle cx=\"" ++ ratRepr p.1 ++ "\" cy=\"" ++ ratRepr p.2 ++
        "\" r=\"3\" fill=\"#349552\"/>",
      "<text x=\"" ++ ratRepr p.1 ++ "\" y=\"" ++ ratRepr (p.2 - 10) ++
        "\" text-anchor=\"middle\" font-family=\"sans-serif\" font-size=\"14\" fill=\"#191919\">" ++
        label_formatted ++ "</text>"]
  else
    return []

/-- One door glyph: colored by the truthiness of the stored open flag. -/
def renderDoor (min_x min_y scale_x scale_y : Rat) (door : DoorRec) :
    Except String String := do
  let x ← pyToRat door.x
  let y ← pyToRat door.y
  let p := transformPoint min_x min_y scale_x scale_y x y
  let w ← pyToRat door.width
  let door_width := w * scale_x
  let color := if pyTruthy door.isOpen then "#35B0FE" else "#F17F38"
  return "<rect x=\"" ++ ratRepr (p.1 - door_width / 2) ++ "\" y=\"" ++
    ratRepr (p.2 - 5) ++ "\" width=\"" ++ ratRepr door_width ++
    "\" height=\"10\" fill=\"" ++ color ++ "\" stroke=\"#191919\" stroke-width=\"1\"/>"

/-- One window glyph. -/
def renderWindow (min_x min_y scale_x scale_y : Rat) (window : WindowRec) :
    Except String String := do
  let x ← pyToRat window.x
  let y ← pyToRat window.y
  let p := transformPoint min_x min_y scale_x scale_y x y
  let w ← pyToRat window.width
  let win_width := w * scale_x
  return "<rect x=\"" ++ ratRepr (p.1 - win_width / 2) ++ "\" y=\"" ++
    ratRepr (p.2 - 3) ++ "\" width=\"" ++ ratRepr win_width ++
    "\" height=\"6\" fill=\"#07C0C3\" stroke=\"#191919\" stroke-width=\"1\"/>"

/-- The fill color keyed by object type (default gray, then overridden). -/
def objColor (t : String) : String :=
  if t = "bed" ∨ t = "sofa" ∨ t = "chair" then "#E8F5E9"
  else if t = "table" then "#FFF3E0"
  else if t = "storage" ∨ t = "cabinet" then "#E3F2FD"
  else "#D9D9D9"

/-- One furniture glyph, with a text label only when the rendered width
exceeds 30 pixels. -/
def renderObject (min_x min_y scale_x scale_y : Rat) (obj : ObjRec) :
    Except String (List String) := do
  let x ← pyToRat obj.x
  let y ← pyToRat obj.y
  let p := transformPoint min_x min_y scale_x scale_y x y
  let w ← pyToRat obj.width
  let d ← pyToRat obj.depth
  let obj_width := w * scale_x
  let obj_depth := d * scale_y
  let color := objColor obj.type
  let rect := "<rect x=\"" ++ ratRepr (p.1 - obj_width / 2) ++ "\" y=\"" ++
    ratRepr (p.2 - obj_depth / 2) ++ "\" width=\"" ++ ratRepr obj_width ++
    "\" height=\"" ++ ratRepr obj_depth ++ "\" fill=\"" ++ color ++
    "\" stroke=\"#191919\" stroke-width=\"1\"/>"
  if 30 < obj_width then
    return [rect, "<text x=\"" ++ ratRepr p.1 ++ "\" y=\"" ++ ratRepr p.2 ++
      "\" text-anchor=\"middle\" font-family=\"sans-serif\" font-size=\"10\" fill=\"#191919\">" ++
      pyCapitalize obj.type ++ "</text>"]
  else
    return [rect]

/-- `_render_svg`: the full SVG assembly. -/
def render_svg (floor_points : List (Val × Val)) (sections : Val)
    (doors : List DoorRec) (windows : List WindowRec) (objects : List ObjRec)
    (bbox : Rat × Rat × Rat × Rat) : Except String String := do
  let (min_x, min_y, max_x, max_y) := bbox
  let width := max_x - min_x
  let height := max_y - min_y
  let svg_width : Int := 800
  let svg_height ← svgHeightOf width height
  let scale_x ← scaleXOf width
  let scale_y ← scaleYOf svg_height height
  let header := "<svg xmlns=\"http://www.w3.org/2000/svg\" width=\"" ++
    toString svg_width ++ "\" height=\"" ++ toString svg_height ++
    "\" viewBox=\"0 0 " ++ toString svg_width ++ " " ++ toString svg_height ++ "\">"
  let background := "<rect width=\"" ++ toString svg_width ++ "\" height=\"" ++
    toString svg_height ++ "\" fill=\"#FCF7F4\"/>"
  let floorParts ← renderFloorPoly min_x min_y scale_x scale_y floor_points
  let secItems ← pyIter sections
  let secParts ← secItems.mapM (renderSection min_x min_y scale_x scale_y)
  let doorParts ← doors.mapM (renderDoor min_x min_y scale_x scale_y)
  let winParts ← windows.mapM (renderWindow min_x min_y scale_x scale_y)
  let objParts ← objects.mapM (renderObject min_x min_y scale_x scale_y)
  let svg_parts := [header, background] ++ floorParts ++ secParts.flatten ++
    doorParts ++ winParts ++ objParts.flatten ++ ["</svg>"]
  return String.intercalate "\n" svg_parts

/-- `_generate_fallback_svg`: the fixed placeholder document. -/
def generate_fallback_svg : String :=
  "<svg xmlns=\"http://www.w3.org/2000/svg\" width=\"400\" height=\"400\" viewBox=\"0 0 400 400\">\n" ++
  "  <rect width=\"400\" height=\"400\" fill=\"#FCF7F4\"/>\n" ++
  "  <rect x=\"50\" y=\"50\" width=\"300\" height=\"300\" fill=\"white\" stroke=\"#191919\" stroke-width=\"2\"/>\n" ++
  "  <text x=\"200\" y=\"200\" text-anchor=\"middle\" font-family=\"sans-serif\" font-size=\"16\" fill=\"#191919\">\n" ++
  "    Room Floorplan\n" ++
  "  </text>\n" ++
  "  <text x=\"200\" y=\"220\" text-anchor=\"middle\" font-family=\"sans-serif\" font-size=\"12\" fill=\"#999\">\n" ++
  "    (Visualization unavailable)\n" ++
  "  </text>\n" ++
  "</svg>"

/-- The fallback unit-square boundary substituted when no floor boundary is
found (`[(0, 0), (5, 0), (5, 5), (0, 5)]`). -/
def fallbackBoundary : List (Val × Val) :=
  [(.num 0, .num 0), (.num 5, .num 0), (.num 5, .num 5), (.num 0, .num 5)]

/-- The floor-boundary stage of `generate_2d_floorplan_svg`: extract, and on
an empty result log a warning and substitute `fallbackBoundary`. -/
def floorStage (roomplan_json : Val) : List (Val × Val) × List Log :=
  let r := extract_floor_boundary roomplan_json
  if r.1.isEmpty then
    (fallbackBoundary, r.2 ++ [.warning "No floor boundary found, using fallback"])
  else
    r

/-- The `try` body of `generate_2d_floorplan_svg`, with the logs emitted so
far carried outside the exception monad (Python logging is a side effect
that survives a later exception). -/
def generateBody (roomplan_json : Val) : List Log × Except String String :=
  let fs := floorStage roomplan_json
  let floor_points := fs.1
  match pyGet roomplan_json "sections" (.list []) with
  | .error e => (fs.2, .error e)
  | .ok sections =>
    let ds := extract_doors roomplan_json
    let ws := extract_windows roomplan_json
    let os := extract_objects roomplan_json
    let logs := fs.2 ++ ds.2 ++ ws.2 ++ os.2
    match compute_bounding_box floor_points os.1 with
    | .error e => (logs, .error e)
    | .ok bbox =>
      match render_svg floor_points sections ds.1 ws.1 os.1 bbox with
      | .error e => (logs, .error e)
      | .ok svg => (logs, .ok svg)

/-- `generate_2d_floorplan_svg`: the total top-level entry point; any
exception from the body is logged at error level and replaced by the
fallback SVG. -/
def generate_2d_floorplan_svg (roomplan_json : Val) : String × List Log :=
  match generateBody roomplan_json with
  | (logs, .ok svg) => (svg, logs)
  | (logs, .error e) =>
    (generate_fallback_svg, logs ++ [.error ("Error generating floorplan SVG: " ++ e)])

/-- A document with an empty `floors` array, used to instantiate C7. -/
def docC7 : Val := .dict [("floors", .list [])]

/-- Lifting of rational floor points into the runtime value model. -/
def liftPts (fps : List (Rat × Rat)) : List (Val × Val) :=
  fps.map (fun p => (Val.num p.1, Val.num p.2))

/-- A concrete object record with numeric position, used by witnesses. -/
def sofaObj : ObjRec :=
  { x := .num 10, y := .num (-2), width := .num 1, depth := .num 1, type := "sofa" }

/-- A value Python arithmetic accepts as a number. -/
def numVal : Val → Bool
  | .num _ => true
  | .bool _ => true
  | _ => false

/-- A section record that renders without an exception: its `center` is
either too short (skipped) or has numeric first two entries and a string
(or absent) `label`. -/
def sectionWF (sec : Val) : Bool :=
  match pyGet sec "center" (.list []) with
  | .error _ => false
  | .ok center =>
    match pyLen center with
    | .error _ => false
    | .ok n =>
      if 2 ≤ n then
        match pyIndex center 0, pyIndex center 1 with
        | .ok xv, .ok yv =>
          numVal xv && numVal yv &&
            (match pyGet sec "label" (.str "room") with
             | .ok (.str _) => true
             | _ => false)
        | _, _ => false
      else true

/-- A door record with numeric position and width. -/
def doorWF (d : DoorRec) : Bool := numVal d.x && numVal d.y && numVal d.width

/-- A window record with numeric position and width. -/
def windowWF (w : WindowRec) : Bool := numVal w.x && numVal w.y && numVal w.width

/-- An object record with numeric position and extent. -/
def objWF (o : ObjRec) : Bool :=
  numVal o.x && numVal o.y && numVal o.width && numVal o.depth

/-- The value of the guarded `svg_height` computation (the guard keeps the
division away from a zero width). -/
def svgHeightVal (width height : Rat) : Int :=
  if 0 < width then pyInt (800 * (height / width)) else 800

/-- The value of the guarded `scale_x` computation. -/
def scaleXVal (width : Rat) : Rat :=
  if 0 < width then 800 / width else 1

/-- The value of the guarded `scale_y` computation. -/
def scaleYVal (svg_height : Int) (height : Rat) : Rat :=
  if 0 < height then (svg_height : Rat) / height else 1

/-- Whether one loop iteration runs without an exception. -/
def exOk {α : Type} (r : Except String (Option α)) : Bool :=
  match r with
  | .ok _ => true
  | .error _ => false

/-- The record (if any) produced by one successful loop iteration. -/
def exVal {α : Type} (r : Except String (Option α)) : Option α :=
  match r with
  | .ok o => o
  | .error _ => none

/-- The exception (if any) raised by one loop iteration. -/
def errOf {α : Type} (r : Except String (Option α)) : Option String :=
  match r with
  | .error e => some e
  | .ok _ => none

/-- A door whose transform has exactly 12 entries: the `>= 12` guard admits
it, but reading `transform[12]` raises `IndexError`. -/
def docC4 : Val :=
  .dict [("doors", .list [.dict [("transform", .list (List.replicate 12 (.num 0)))]])]

/-- A well-formed door record: 16-entry transform with 2.0 at indices 12
and 13, no other fields. -/
def goodDoor : Val := .dict [("transform", .list (List.replicate 16 (.num 2)))]

/-- A document holding exactly one well-formed door. -/
def docC4W : Val := .dict [("doors", .list [goodDoor])]

/-- A doors collection holding a well-formed record followed by an integer
(whose `.get` raises `AttributeError`). -/
def docC2 : Val := .dict [("doors", .list [goodDoor, .num 7])]

/-- A document whose first floor has one good corner followed by an integer
corner (whose `len` raises `TypeError` mid-loop): the floor boundary's
`except` then discards the already-appended point and returns `[]`. -/
def docC2F : Val :=
  .dict [("floors", .list [.dict [("polygonCorners",
    .list [.list [.num 1, .num 2, .num 3], .num 5])]])]

/-- A doors collection holding a record with a 16-entry transform and no
`dimensions` entry. -/
def docC3 : Val :=
  .dict [("doors", .list [.dict [("transform", .list (List.replicate 16 (.num 0)))]])]

/-- The 2D projection `(corner[0], corner[1])` of a corner with at least
two components (the default branch is unreachable under the well-formedness
hypotheses below). -/
def cornerXY : Val → Val × Val
  | .list (x :: y :: _) => (x, y)
  | _ => (.num 0, .num 0)

/-- A concrete document with one floor of two 3D corners. -/
def docC5 : Val :=
  .dict [("floors", .list [.dict [("polygonCorners", .list
    [.list [.num 0, .num 0, .num 0], .list [.num 4, .num 3, .num 0]])]])]

/-- Modelled from the spec: the cross-product sign convention
`cross(o,a,b) = (a.x-o.x)*(b.y-o.y) - (a.y-o.y)*(b.x-o.x)`. -/
def cross (o a b : Rat × Rat) : Rat :=
  (a.1 - o.1) * (b.2 - o.2) - (a.2 - o.2) * (b.1 - o.1)

/-- Modelled from the spec: pop stack entries while the last two points and
the candidate make a non-left turn (cross ≤ 0); the stack holds the most
recent point first. -/
def popWhileNonLeft : List (Rat × Rat) → (Rat × Rat) → List (Rat × Rat)
  | a :: o :: rest, b =>
    if cross o a b ≤ 0 then popWhileNonLeft (o :: rest) b else a :: o :: rest
  | st, _ => st

/-- Modelled from the spec: one monotone chain built over the given point
order, returned with the most recent point first. -/
def chainFold (pts : List (Rat × Rat)) : List (Rat × Rat) :=
  pts.foldl (fun st p => p :: popWhileNonLeft st p) []

/-- Modelled from the spec: adjacent-duplicate removal after the
lexicographic sort (exact duplicates are adjacent once sorted). -/
def dedupAdj : List (Rat × Rat) → List (Rat × Rat)
  | [] => []
  | [p] => [p]
  | p :: q :: rest =>
    if p = q then dedupAdj (q :: rest) else p :: dedupAdj (q :: rest)

/-- Modelled from the spec: lexicographic order on 2D points. -/
def lexLe (p q : Rat × Rat) : Bool :=
  p.1 < q.1 || (p.1 == q.1 && p.2 ≤ q.2)

/-- Modelled from the spec: `extract_hull_floorplan` — filter vertices to
floor level (z at most the 25th-percentile z plus 0.05, falling back to all
vertices when fewer than 4 survive), project to (x, y), sort and
deduplicate, then build Andrew's monotone chains; degenerate inputs (at
most one distinct point) are returned unchanged. The spec leaves the
percentile convention open; nearest-rank on the sorted z list is used. -/
def extract_hull_floorplan (vertices : List (Rat × Rat × Rat)) : List (Rat × Rat) :=
  let sortedZs := (vertices.map (fun v => v.2.2)).mergeSort (fun a b => a ≤ b)
  let q := sortedZs.getD ((sortedZs.length - 1) / 4) 0
  let floorVerts := vertices.filter (fun v => v.2.2 ≤ q + 5/100)
  let chosen := if floorVerts.length < 4 then vertices else floorVerts
  let sorted := dedupAdj ((chosen.map (fun v => (v.1, v.2.1))).mergeSort lexLe)
  if sorted.length ≤ 1 then sorted
  else
    let lower := (chainFold sorted).reverse
    let upper := (chainFold sorted.reverse).reverse
    lower.dropLast ++ upper.dropLast

/-! ## Lemmas and claim theorems -/

/-- The logs of the floor-boundary stage are a prefix of the logs returned
by the top-level generator, in every branch (success, extraction error,
bounding-box error, render error). -/
lemma generate_logs_append (j : Val) :
    ∃ rest, (generate_2d_floorplan_svg j).2 = (floorStage j).2 ++ rest := by
  unfold generate_2d_floorplan_svg generateBody
  rcases hs : pyGet j "sections" (.list []) with e | sections
  · exact ⟨[.error ("Error generating floorplan SVG: " ++ e)], by simp⟩
  · rcases hb : compute_bounding_box (floorStage j).1 (extract_objects j).1 with e | bbox
    · refine ⟨(extract_doors j).2 ++ (extract_windows j).2 ++ (extract_objects j).2 ++
        [.error ("Error generating floorplan SVG: " ++ e)], ?_⟩
      simp [hb]
    · rcases hr : render_svg (floorStage j).1 sections (extract_doors j).1
        (extract_windows j).1 (extract_objects j).1 bbox with e | svg
      · refine ⟨(extract_doors j).2 ++ (extract_windows j).2 ++ (extract_objects j).2 ++
          [.error ("Error generating floorplan SVG: " ++ e)], ?_⟩
        simp [hb, hr]
      · refine ⟨(extract_doors j).2 ++ (extract_windows j).2 ++ (extract_objects j).2, ?_⟩
        simp [hb, hr]

/-- C10: with an empty floor-point list, `_compute_bounding_box` returns the
fixed box `(0, 0, 5, 5)` unconditionally; the object list is ignored. -/
theorem claim_C10_empty_floor_points_fixed_box (objects : List ObjRec) :
    compute_bounding_box [] objects = .ok (0, 0, 5, 5) := rfl

/-- C1: the top-level generator is total (returns a string, never an
exception); when the wrapped body succeeds the result is its SVG, and on
any internal exception the result is the fixed fallback SVG with the
original exception appended to the log at error level. -/
theorem claim_C1_top_level_total_fallback (j : Val) :
    (∃ logs svg, generateBody j = (logs, .ok svg) ∧
      generate_2d_floorplan_svg j = (svg, logs)) ∨
    (∃ logs e, generateBody j = (logs, .error e) ∧
      generate_2d_floorplan_svg j =
        (generate_fallback_svg, logs ++ [.error ("Error generating floorplan SVG: " ++ e)])) := by
  rcases h : generateBody j with ⟨logs, r⟩
  cases r with
  | ok svg =>
    exact .inl ⟨logs, svg, rfl, by simp [generate_2d_floorplan_svg, h]⟩
  | error e =>
    exact .inr ⟨logs, e, rfl, by simp [generate_2d_floorplan_svg, h]⟩

/-- C7: a document whose `floors` entry is an empty list (or absent, which
`get` defaults to the same empty list) makes the generator substitute the
fallback boundary `[(0,0), (5,0), (5,5), (0,5)]` and log a warning; the
generator is total, so nothing is raised. -/
theorem claim_C7_empty_floors_fallback_boundary (j : Val)
    (h : pyGet j "floors" (.list []) = .ok (.list [])) :
    floorStage j = (fallbackBoundary,
      [.warning "No floor boundary found, using fallback"]) ∧
    Log.warning "No floor boundary found, using fallback" ∈
      (generate_2d_floorplan_svg j).2 := by
  have hb : floorBoundaryBody j = .ok ([] : List (Val × Val)) := by
    unfold floorBoundaryBody
    rw [h]
    rfl
  have hext : extract_floor_boundary j = ([], []) := by
    unfold extract_floor_boundary
    rw [hb]
  have hstage : floorStage j = (fallbackBoundary,
      [.warning "No floor boundary found, using fallback"]) := by
    unfold floorStage
    rw [hext]
    rfl
  refine ⟨hstage, ?_⟩
  obtain ⟨rest, hrest⟩ := generate_logs_append j
  rw [hrest, hstage]
  simp

/-- Witness for C7 at the concrete document `docC7`. -/
theorem claim_C7_empty_floors_fallback_boundary_witness :
    pyGet docC7 "floors" (.list []) = .ok (.list []) ∧
    (floorStage docC7 = (fallbackBoundary,
        [.warning "No floor boundary found, using fallback"]) ∧
      Log.warning "No floor boundary found, using fallback" ∈
        (generate_2d_floorplan_svg docC7).2) :=
  ⟨rfl, claim_C7_empty_floors_fallback_boundary docC7 rfl⟩

/-! ## Order lemmas for the folded `min`/`max` of `_compute_bounding_box` -/

lemma pyminList_le_self (x : Rat) (xs : List Rat) : pyminList x xs ≤ x := by
  induction xs generalizing x with
  | nil => exact le_refl x
  | cons y ys ih =>
    exact le_trans (ih (min x y)) (min_le_left x y)

lemma pyminList_le_mem {a : Rat} {xs : List Rat} (x : Rat) (ha : a ∈ xs) :
    pyminList x xs ≤ a := by
  induction xs generalizing x with
  | nil => cases ha
  | cons y ys ih =>
    rcases List.mem_cons.mp ha with h | h
    · subst h
      exact le_trans (pyminList_le_self (min x a) ys) (min_le_right x a)
    · exact ih (min x y) h

lemma le_pymaxList_self (x : Rat) (xs : List Rat) : x ≤ pymaxList x xs := by
  induction xs generalizing x with
  | nil => exact le_refl x
  | cons y ys ih =>
    exact le_trans (le_max_left x y) (ih (max x y))

lemma le_pymaxList_mem {a : Rat} {xs : List Rat} (x : Rat) (ha : a ∈ xs) :
    a ≤ pymaxList x xs := by
  induction xs generalizing x with
  | nil => cases ha
  | cons y ys ih =>
    rcases List.mem_cons.mp ha with h | h
    · subst h
      exact le_trans (le_max_right x a) (le_pymaxList_self (max x a) ys)
    · exact ih (max x y) h

lemma pyminList_le_pymaxList (x : Rat) (xs : List Rat) :
    pyminList x xs ≤ pymaxList x xs :=
  le_trans (pyminList_le_self x xs) (le_pymaxList_self x xs)

/-- The padded interval of `_compute_bounding_box` contains every member of
the coordinate list it was computed from. -/
lemma bbox_pad_bounds {q x0 : Rat} {xt : List Rat} (hq : q ∈ x0 :: xt) :
    pyminList x0 xt - (pymaxList x0 xt - pyminList x0 xt) * (1/10) ≤ q ∧
    q ≤ pymaxList x0 xt + (pymaxList x0 xt - pyminList x0 xt) * (1/10) := by
  have hmn : pyminList x0 xt ≤ q := by
    rcases List.mem_cons.mp hq with h | h
    · rw [h]; exact pyminList_le_self x0 xt
    · exact pyminList_le_mem x0 h
  have hmx : q ≤ pymaxList x0 xt := by
    rcases List.mem_cons.mp hq with h | h
    · rw [h]; exact le_pymaxList_self x0 xt
    · exact le_pymaxList_mem x0 h
  have hpad : 0 ≤ (pymaxList x0 xt - pyminList x0 xt) * (1/10) := by
    have := pyminList_le_pymaxList x0 xt
    nlinarith
  constructor <;> nlinarith

/-- Mapping rationals through `Val.num` and back through `pyToRat`
round-trips. -/
lemma mapM_pyToRat_map_num (qs : List Rat) :
    (qs.map Val.num).mapM pyToRat = .ok qs := by
  induction qs with
  | nil => rfl
  | cons q qs ih =>
    simp only [List.map_cons, List.mapM_cons, ih, pyToRat]
    rfl

/-- A list of numeric values is the image of a rational list. -/
lemma exists_rat_list_of_forall_num {l : List Val}
    (h : ∀ v ∈ l, ∃ q, v = .num q) : ∃ qs : List Rat, l = qs.map Val.num := by
  induction l with
  | nil => exact ⟨[], rfl⟩
  | cons v vs ih =>
    obtain ⟨q, hq⟩ := h v (List.mem_cons_self v vs)
    obtain ⟨qs, hqs⟩ := ih (fun w hw => h w (List.mem_cons_of_mem v hw))
    exact ⟨q :: qs, by rw [hq, hqs]; rfl⟩

/-- Evaluation of `_compute_bounding_box` on numeric inputs: the result is
`min`/`max` over floor coordinates and object positions, padded by 10% of
the raw extent on each axis. -/
lemma compute_bounding_box_eval (p : Rat × Rat) (l : List (Rat × Rat))
    (objects : List ObjRec) (oxs oys : List Rat)
    (hx : objects.map ObjRec.x = oxs.map Val.num)
    (hy : objects.map ObjRec.y = oys.map Val.num) :
    compute_bounding_box (liftPts (p :: l)) objects =
      .ok (pyminList p.1 (l.map Prod.fst ++ oxs) -
             (pymaxList p.1 (l.map Prod.fst ++ oxs) -
              pyminList p.1 (l.map Prod.fst ++ oxs)) * (1/10),
           pyminList p.2 (l.map Prod.snd ++ oys) -
             (pymaxList p.2 (l.map Prod.snd ++ oys) -
              pyminList p.2 (l.map Prod.snd ++ oys)) * (1/10),
           pymaxList p.1 (l.map Prod.fst ++ oxs) +
             (pymaxList p.1 (l.map Prod.fst ++ oxs) -
              pyminList p.1 (l.map Prod.fst ++ oxs)) * (1/10),
           pymaxList p.2 (l.map Prod.snd ++ oys) +
             (pymaxList p.2 (l.map Prod.snd ++ oys) -
              pyminList p.2 (l.map Prod.snd ++ oys)) * (1/10)) := by
  have hxs_eq : (liftPts (p :: l)).map Prod.fst ++ objects.map ObjRec.x
      = (p.1 :: (l.map Prod.fst ++ oxs)).map Val.num := by
    simp [liftPts, hx, List.map_map, Function.comp]
  have hys_eq : (liftPts (p :: l)).map Prod.snd ++ objects.map ObjRec.y
      = (p.2 :: (l.map Prod.snd ++ oys)).map Val.num := by
    simp [liftPts, hy, List.map_map, Function.comp]
  unfold compute_bounding_box
  rw [hxs_eq, hys_eq, mapM_pyToRat_map_num, mapM_pyToRat_map_num]
  rfl

/-- C6: for every non-empty (numeric) floor-point list and every object list
with numeric positions, the padded bounding box contains every floor point
and every object position, and it arises from raw `min`/`max` bounds by a
non-negative 10% padding per axis, so the unpadded bounds are inside the
padded bounds. -/
theorem claim_C6_bbox_contains_all_points (fps : List (Rat × Rat))
    (objects : List ObjRec) (hne : fps ≠ [])
    (hnum : ∀ o ∈ objects, (∃ q, o.x = Val.num q) ∧ (∃ q, o.y = Val.num q)) :
    ∃ a b c d, compute_bounding_box (liftPts fps) objects = .ok (a, b, c, d) ∧
      (∀ q ∈ fps, a ≤ q.1 ∧ q.1 ≤ c ∧ b ≤ q.2 ∧ q.2 ≤ d) ∧
      (∀ o ∈ objects, ∀ qx, o.x = Val.num qx → a ≤ qx ∧ qx ≤ c) ∧
      (∀ o ∈ objects, ∀ qy, o.y = Val.num qy → b ≤ qy ∧ qy ≤ d) ∧
      (∃ mnx mxx mny mxy : Rat, mnx ≤ mxx ∧ mny ≤ mxy ∧
        a = mnx - (mxx - mnx) * (1/10) ∧ c = mxx + (mxx - mnx) * (1/10) ∧
        b = mny - (mxy - mny) * (1/10) ∧ d = mxy + (mxy - mny) * (1/10) ∧
        a ≤ mnx ∧ mxx ≤ c ∧ b ≤ mny ∧ mxy ≤ d) := by
  obtain ⟨oxs, hx⟩ := exists_rat_list_of_forall_num
    (l := objects.map ObjRec.x) (by
      intro v hv
      obtain ⟨o, ho, rfl⟩ := List.mem_map.mp hv
      exact (hnum o ho).1)
  obtain ⟨oys, hy⟩ := exists_rat_list_of_forall_num
    (l := objects.map ObjRec.y) (by
      intro v hv
      obtain ⟨o, ho, rfl⟩ := List.mem_map.mp hv
      exact (hnum o ho).2)
  obtain ⟨p, l, rfl⟩ : ∃ p l, fps = p :: l := by
    cases fps with
    | nil => exact absurd rfl hne
    | cons p l => exact ⟨p, l, rfl⟩
  have heval := compute_bounding_box_eval p l objects oxs oys hx hy
  set mnx := pyminList p.1 (l.map Prod.fst ++ oxs) with hmnx
  set mxx := pymaxList p.1 (l.map Prod.fst ++ oxs) with hmxx
  set mny := pyminList p.2 (l.map Prod.snd ++ oys) with hmny
  set mxy := pymaxList p.2 (l.map Prod.snd ++ oys) with hmxy
  refine ⟨mnx - (mxx - mnx) * (1/10), mny - (mxy - mny) * (1/10),
    mxx + (mxx - mnx) * (1/10), mxy + (mxy - mny) * (1/10), heval, ?_, ?_, ?_, ?_⟩
  · intro q hq
    have hqx : q.1 ∈ p.1 :: (l.map Prod.fst ++ oxs) := by
      rcases List.mem_cons.mp hq with h | h
      · rw [h]; exact List.mem_cons_self _ _
      · exact List.mem_cons_of_mem _ (List.mem_append_left _ (List.mem_map_of_mem Prod.fst h))
    have hqy : q.2 ∈ p.2 :: (l.map Prod.snd ++ oys) := by
      rcases List.mem_cons.mp hq with h | h
      · rw [h]; exact List.mem_cons_self _ _
      · exact List.mem_cons_of_mem _ (List.mem_append_left _ (List.mem_map_of_mem Prod.snd h))
    obtain ⟨h1, h2⟩ := bbox_pad_bounds hqx
    obtain ⟨h3, h4⟩ := bbox_pad_bounds hqy
    exact ⟨h1, h2, h3, h4⟩
  · intro o ho qx hqx
    have : qx ∈ oxs := by
      have hmem : Val.num qx ∈ oxs.map Val.num := by
        rw [← hx, ← hqx]
        exact List.mem_map_of_mem ObjRec.x ho
      obtain ⟨q', hq', heq⟩ := List.mem_map.mp hmem
      cases heq
      exact hq'
    have hqmem : qx ∈ p.1 :: (l.map Prod.fst ++ oxs) :=
      List.mem_cons_of_mem _ (List.mem_append_right _ this)
    exact bbox_pad_bounds hqmem
  · intro o ho qy hqy
    have : qy ∈ oys := by
      have hmem : Val.num qy ∈ oys.map Val.num := by
        rw [← hy, ← hqy]
        exact List.mem_map_of_mem ObjRec.y ho
      obtain ⟨q', hq', heq⟩ := List.mem_map.mp hmem
      cases heq
      exact hq'
    have hqmem : qy ∈ p.2 :: (l.map Prod.snd ++ oys) :=
      List.mem_cons_of_mem _ (List.mem_append_right _ this)
    exact bbox_pad_bounds hqmem
  · refine ⟨mnx, mxx, mny, mxy, pyminList_le_pymaxList _ _, pyminList_le_pymaxList _ _,
      rfl, rfl, rfl, rfl, ?_, ?_, ?_, ?_⟩ <;>
      nlinarith [pyminList_le_pymaxList p.1 (l.map Prod.fst ++ oxs),
        pyminList_le_pymaxList p.2 (l.map Prod.snd ++ oys)]

/-- Witness for C6 at a concrete two-point floor with one object. -/
theorem claim_C6_bbox_contains_all_points_witness :
    ([((0 : Rat), (0 : Rat)), (4, 3)] ≠ ([] : List (Rat × Rat))) ∧
    (∀ o ∈ [sofaObj], (∃ q, o.x = Val.num q) ∧ (∃ q, o.y = Val.num q)) ∧
    (∃ a b c d, compute_bounding_box (liftPts [((0 : Rat), (0 : Rat)), (4, 3)]) [sofaObj] =
        .ok (a, b, c, d) ∧
      (∀ q ∈ [((0 : Rat), (0 : Rat)), (4, 3)], a ≤ q.1 ∧ q.1 ≤ c ∧ b ≤ q.2 ∧ q.2 ≤ d) ∧
      (∀ o ∈ [sofaObj], ∀ qx, o.x = Val.num qx → a ≤ qx ∧ qx ≤ c) ∧
      (∀ o ∈ [sofaObj], ∀ qy, o.y = Val.num qy → b ≤ qy ∧ qy ≤ d) ∧
      (∃ mnx mxx mny mxy : Rat, mnx ≤ mxx ∧ mny ≤ mxy ∧
        a = mnx - (mxx - mnx) * (1/10) ∧ c = mxx + (mxx - mnx) * (1/10) ∧
        b = mny - (mxy - mny) * (1/10) ∧ d = mxy + (mxy - mny) * (1/10) ∧
        a ≤ mnx ∧ mxx ≤ c ∧ b ≤ mny ∧ mxy ≤ d)) := by
  have hnum : ∀ o ∈ [sofaObj], (∃ q, o.x = Val.num q) ∧ (∃ q, o.y = Val.num q) := by
    intro o ho
    rw [List.mem_singleton] at ho
    subst ho
    exact ⟨⟨10, rfl⟩, ⟨-2, rfl⟩⟩
  exact ⟨by simp, hnum,
    claim_C6_bbox_contains_all_points [((0 : Rat), (0 : Rat)), (4, 3)] [sofaObj]
      (by simp) hnum⟩

lemma pyToRat_ok_of_numVal {v : Val} (h : numVal v = true) :
    ∃ q, pyToRat v = .ok q := by
  cases v with
  | num q => exact ⟨q, rfl⟩
  | bool b => exact ⟨if b then 1 else 0, rfl⟩
  | str s => simp [numVal] at h
  | list xs => simp [numVal] at h
  | dict kvs => simp [numVal] at h

lemma pure_ok_eq {α : Type} (a : α) : (pure a : Except String α) = .ok a := rfl

lemma bind_ok_eq {α β : Type} (a : α) (f : α → Except String β) :
    (Except.ok a : Except String α) >>= f = f a := rfl

lemma bind_error_eq {α β : Type} (e : String) (f : α → Except String β) :
    (Except.error e : Except String α) >>= f = .error e := rfl

lemma mapM_ok_of_forall {α β : Type} (g : α → Except String β) (l : List α)
    (h : ∀ x ∈ l, ∃ y, g x = .ok y) : ∃ ys, l.mapM g = .ok ys := by
  induction l with
  | nil => exact ⟨[], rfl⟩
  | cons x xs ih =>
    obtain ⟨y, hy⟩ := h x (List.mem_cons_self x xs)
    obtain ⟨ys, hys⟩ := ih (fun z hz => h z (List.mem_cons_of_mem x hz))
    refine ⟨y :: ys, ?_⟩
    rw [List.mapM_cons, hy, bind_ok_eq, hys, bind_ok_eq]
    rfl

/-- The `svg_height` computation never raises `ZeroDivisionError`: the
`width > 0` guard protects the division. -/
lemma svgHeightOf_eq (width height : Rat) :
    svgHeightOf width height = .ok (svgHeightVal width height) := by
  unfold svgHeightOf svgHeightVal pyDiv
  split
  · next hw => rw [if_neg (by intro h0; rw [h0] at hw; exact lt_irrefl 0 hw)]; rfl
  · rfl

/-- The `scale_x` computation never raises `ZeroDivisionError`. -/
lemma scaleXOf_eq (width : Rat) : scaleXOf width = .ok (scaleXVal width) := by
  unfold scaleXOf scaleXVal pyDiv
  split
  · next hw => rw [if_neg (by intro h0; rw [h0] at hw; exact lt_irrefl 0 hw)]
  · rfl

/-- The `scale_y` computation never raises `ZeroDivisionError`. -/
lemma scaleYOf_eq (svg_height : Int) (height : Rat) :
    scaleYOf svg_height height = .ok (scaleYVal svg_height height) := by
  unfold scaleYOf scaleYVal pyDiv
  split
  · next hh => rw [if_neg (by intro h0; rw [h0] at hh; exact lt_irrefl 0 hh)]
  · rfl

lemma renderDoor_ok (a b c d : Rat) (door : DoorRec) (h : doorWF door = true) :
    ∃ out, renderDoor a b c d door = .ok out := by
  obtain ⟨⟨hx, hy⟩, hw⟩ : (numVal door.x = true ∧ numVal door.y = true) ∧
      numVal door.width = true := by
    simpa [doorWF, Bool.and_eq_true, and_assoc] using h
  obtain ⟨qx, hqx⟩ := pyToRat_ok_of_numVal hx
  obtain ⟨qy, hqy⟩ := pyToRat_ok_of_numVal hy
  obtain ⟨qw, hqw⟩ := pyToRat_ok_of_numVal hw
  simp only [renderDoor, hqx, hqy, hqw, bind_ok_eq, pure_ok_eq]
  exact ⟨_, rfl⟩

lemma renderWindow_ok (a b c d : Rat) (win : WindowRec) (h : windowWF win = true) :
    ∃ out, renderWindow a b c d win = .ok out := by
  obtain ⟨⟨hx, hy⟩, hw⟩ : (numVal win.x = true ∧ numVal win.y = true) ∧
      numVal win.width = true := by
    simpa [windowWF, Bool.and_eq_true, and_assoc] using h
  obtain ⟨qx, hqx⟩ := pyToRat_ok_of_numVal hx
  obtain ⟨qy, hqy⟩ := pyToRat_ok_of_numVal hy
  obtain ⟨qw, hqw⟩ := pyToRat_ok_of_numVal hw
  simp only [renderWindow, hqx, hqy, hqw, bind_ok_eq, pure_ok_eq]
  exact ⟨_, rfl⟩

lemma renderObject_ok (a b c d : Rat) (obj : ObjRec) (h : objWF obj = true) :
    ∃ out, renderObject a b c d obj = .ok out := by
  obtain ⟨⟨⟨hx, hy⟩, hw⟩, hd⟩ : ((numVal obj.x = true ∧ numVal obj.y = true) ∧
      numVal obj.width = true) ∧ numVal obj.depth = true := by
    simpa [objWF, Bool.and_eq_true, and_assoc] using h
  obtain ⟨qx, hqx⟩ := pyToRat_ok_of_numVal hx
  obtain ⟨qy, hqy⟩ := pyToRat_ok_of_numVal hy
  obtain ⟨qw, hqw⟩ := pyToRat_ok_of_numVal hw
  obtain ⟨qd, hqd⟩ := pyToRat_ok_of_numVal hd
  simp only [renderObject, hqx, hqy, hqw, hqd, bind_ok_eq]
  by_cases h30 : (30 : Rat) < qw * c
  · rw [if_pos h30]; exact ⟨_, rfl⟩
  · rw [if_neg h30]; exact ⟨_, rfl⟩

lemma renderFloorPoly_ok (a b c d : Rat) (fps : List (Val × Val))
    (h : ∀ pr ∈ fps, numVal pr.1 = true ∧ numVal pr.2 = true) :
    ∃ out, renderFloorPoly a b c d fps = .ok out := by
  by_cases hemp : fps.isEmpty
  · exact ⟨[], by simp [renderFloorPoly, hemp, pure_ok_eq]⟩
  · obtain ⟨coords, hcoords⟩ := mapM_ok_of_forall
      (floorPointCoord a b c d) fps
      (by
        intro pr hpr
        obtain ⟨qx, hqx⟩ := pyToRat_ok_of_numVal (h pr hpr).1
        obtain ⟨qy, hqy⟩ := pyToRat_ok_of_numVal (h pr hpr).2
        simp only [floorPointCoord, hqx, hqy, bind_ok_eq, pure_ok_eq]
        exact ⟨_, rfl⟩)
    simp only [renderFloorPoly, hemp, Bool.false_eq_true, if_false, hcoords, bind_ok_eq,
      pure_ok_eq]
    exact ⟨_, rfl⟩

/-- On well-formed inputs, `_render_svg` returns a string for every
bounding box; in particular no division and no exception occurs. -/
lemma render_svg_ok (fps : List (Val × Val)) (ss : List Val)
    (doors : List DoorRec) (windows : List WindowRec) (objects : List ObjRec)
    (a b c d : Rat)
    (hfp : ∀ pr ∈ fps, numVal pr.1 = true ∧ numVal pr.2 = true)
    (hsec : ∀ s ∈ ss, ∀ mx my sx sy : Rat, ∃ out, renderSection mx my sx sy s = .ok out)
    (hdo : ∀ dr ∈ doors, doorWF dr = true)
    (hwi : ∀ w ∈ windows, windowWF w = true)
    (hob : ∀ o ∈ objects, objWF o = true) :
    ∃ svg, render_svg fps (.list ss) doors windows objects (a, b, c, d) = .ok svg := by
  obtain ⟨fl, hfl⟩ := renderFloorPoly_ok a b (scaleXVal (c - a))
    (scaleYVal (svgHeightVal (c - a) (d - b)) (d - b)) fps hfp
  obtain ⟨sp, hsp⟩ := mapM_ok_of_forall
    (renderSection a b (scaleXVal (c - a))
      (scaleYVal (svgHeightVal (c - a) (d - b)) (d - b))) ss
    (fun s hs => hsec s hs _ _ _ _)
  obtain ⟨dp, hdp⟩ := mapM_ok_of_forall
    (renderDoor a b (scaleXVal (c - a))
      (scaleYVal (svgHeightVal (c - a) (d - b)) (d - b))) doors
    (fun dr hdr => renderDoor_ok _ _ _ _ dr (hdo dr hdr))
  obtain ⟨wp, hwp⟩ := mapM_ok_of_forall
    (renderWindow a b (scaleXVal (c - a))
      (scaleYVal (svgHeightVal (c - a) (d - b)) (d - b))) windows
    (fun w hw => renderWindow_ok _ _ _ _ w (hwi w hw))
  obtain ⟨op, hop⟩ := mapM_ok_of_forall
    (renderObject a b (scaleXVal (c - a))
      (scaleYVal (svgHeightVal (c - a) (d - b)) (d - b))) objects
    (fun o ho => renderObject_ok _ _ _ _ o (hob o ho))
  simp only [render_svg, svgHeightOf_eq, scaleXOf_eq, scaleYOf_eq, bind_ok_eq,
    hfl, hsp, hdp, hwp, hop, pyIter, pure_ok_eq]
  exact ⟨_, rfl⟩

lemma pyminList_const {q : Rat} {xs : List Rat} (h : ∀ a ∈ xs, a = q) :
    pyminList q xs = q := by
  induction xs with
  | nil => rfl
  | cons y ys ih =>
    have hy := h y (List.mem_cons_self y ys)
    rw [hy]
    show pyminList (min q q) ys = q
    rw [min_self]
    exact ih (fun a ha => h a (List.mem_cons_of_mem y ha))

lemma pymaxList_const {q : Rat} {xs : List Rat} (h : ∀ a ∈ xs, a = q) :
    pymaxList q xs = q := by
  induction xs with
  | nil => rfl
  | cons y ys ih =>
    have hy := h y (List.mem_cons_self y ys)
    rw [hy]
    show pymaxList (max q q) ys = q
    rw [max_self]
    exact ih (fun a ha => h a (List.mem_cons_of_mem y ha))

/-- C8: degenerate bounding boxes never cause a division by zero or an
exception: the `width > 0` / `height > 0` guards make `svg_height` default
to the fixed 800-pixel canvas width and both scale factors default to 1,
the 10% padding collapses to 0 on a zero extent, and rendering on
well-formed inputs returns a string for a degenerate box. -/
theorem claim_C8_degenerate_geometry_guards :
    (∀ h : Rat, svgHeightOf 0 h = .ok 800) ∧
    (scaleXOf 0 = .ok 1) ∧
    (∀ sh : Int, scaleYOf sh 0 = .ok 1) ∧
    (∀ (q : Rat) (fps : List (Rat × Rat)) (objects : List ObjRec),
      fps ≠ [] → (∀ p ∈ fps, p.1 = q) → (∀ o ∈ objects, o.x = Val.num q) →
      (∀ o ∈ objects, ∃ qy, o.y = Val.num qy) →
      ∃ b d, compute_bounding_box (liftPts fps) objects = .ok (q, b, q, d)) ∧
    (∀ (q : Rat) (fps : List (Rat × Rat)) (objects : List ObjRec),
      fps ≠ [] → (∀ p ∈ fps, p.2 = q) → (∀ o ∈ objects, o.y = Val.num q) →
      (∀ o ∈ objects, ∃ qx, o.x = Val.num qx) →
      ∃ a c, compute_bounding_box (liftPts fps) objects = .ok (a, q, c, q)) ∧
    (∀ (fps : List (Val × Val)) (ss : List Val) (doors : List DoorRec)
      (windows : List WindowRec) (objects : List ObjRec) (a b c d : Rat),
      (∀ pr ∈ fps, numVal pr.1 = true ∧ numVal pr.2 = true) →
      (∀ s ∈ ss, ∀ mx my sx sy : Rat, ∃ out, renderSection mx my sx sy s = .ok out) →
      (∀ dr ∈ doors, doorWF dr = true) →
      (∀ w ∈ windows, windowWF w = true) →
      (∀ o ∈ objects, objWF o = true) →
      (c - a = 0 ∨ d - b = 0) →
      ∃ svg, render_svg fps (.list ss) doors windows objects (a, b, c, d) = .ok svg) := by
  refine ⟨?_, ?_, ?_, ?_, ?_, ?_⟩
  · intro h
    simp [svgHeightOf, lt_irrefl, pure_ok_eq]
  · simp [scaleXOf, lt_irrefl, pure_ok_eq]
  · intro sh
    simp [scaleYOf, lt_irrefl, pure_ok_eq]
  · intro q fps objects hne hfx hox hoy
    obtain ⟨oys, hy⟩ := exists_rat_list_of_forall_num
      (l := objects.map ObjRec.y) (by
        intro v hv
        obtain ⟨o, ho, rfl⟩ := List.mem_map.mp hv
        exact hoy o ho)
    have hx : objects.map ObjRec.x = (objects.map (fun _ => q)).map Val.num := by
      rw [List.map_map]
      exact List.map_congr_left (fun o ho => hox o ho)
    obtain ⟨p, l, rfl⟩ : ∃ p l, fps = p :: l := by
      cases fps with
      | nil => exact absurd rfl hne
      | cons p l => exact ⟨p, l, rfl⟩
    have heval := compute_bounding_box_eval p l objects (objects.map (fun _ => q)) oys hx hy
    have hallq : ∀ a ∈ l.map Prod.fst ++ objects.map (fun _ => q), a = q := by
      intro a ha
      rcases List.mem_append.mp ha with h | h
      · obtain ⟨pr, hpr, rfl⟩ := List.mem_map.mp h
        exact hfx pr (List.mem_cons_of_mem p hpr)
      · obtain ⟨o, _, rfl⟩ := List.mem_map.mp h
        rfl
    have hp1 : p.1 = q := hfx p (List.mem_cons_self p l)
    rw [hp1] at heval
    rw [pyminList_const hallq, pymaxList_const hallq] at heval
    simp only [sub_self, zero_mul, sub_zero, add_zero] at heval
    exact ⟨_, _, heval⟩
  · intro q fps objects hne hfy hoy hox
    obtain ⟨oxs, hx⟩ := exists_rat_list_of_forall_num
      (l := objects.map ObjRec.x) (by
        intro v hv
        obtain ⟨o, ho, rfl⟩ := List.mem_map.mp hv
        exact hox o ho)
    have hy : objects.map ObjRec.y = (objects.map (fun _ => q)).map Val.num := by
      rw [List.map_map]
      exact List.map_congr_left (fun o ho => hoy o ho)
    obtain ⟨p, l, rfl⟩ : ∃ p l, fps = p :: l := by
      cases fps with
      | nil => exact absurd rfl hne
      | cons p l => exact ⟨p, l, rfl⟩
    have heval := compute_bounding_box_eval p l objects oxs (objects.map (fun _ => q)) hx hy
    have hallq : ∀ a ∈ l.map Prod.snd ++ objects.map (fun _ => q), a = q := by
      intro a ha
      rcases List.mem_append.mp ha with h | h
      · obtain ⟨pr, hpr, rfl⟩ := List.mem_map.mp h
        exact hfy pr (List.mem_cons_of_mem p hpr)
      · obtain ⟨o, _, rfl⟩ := List.mem_map.mp h
        rfl
    have hp2 : p.2 = q := hfy p (List.mem_cons_self p l)
    rw [hp2] at heval
    rw [pyminList_const hallq, pymaxList_const hallq] at heval
    simp only [sub_self, zero_mul, sub_zero, add_zero] at heval
    exact ⟨_, _, heval⟩
  · intro fps ss doors windows objects a b c d hfp hsec hdo hwi hob _
    exact render_svg_ok fps ss doors windows objects a b c d hfp hsec hdo hwi hob

/-- Witness for C8: a single-point floor with no objects yields a
zero-extent box with its x-bounds pinned at the point, and rendering with a
degenerate zero-width box succeeds on empty inputs. -/
theorem claim_C8_degenerate_geometry_guards_witness :
    ([((2 : Rat), (3 : Rat))] ≠ ([] : List (Rat × Rat))) ∧
    ((0 : Rat) - 0 = 0 ∨ (5 : Rat) - 0 = 0) ∧
    (∃ b d, compute_bounding_box (liftPts [((2 : Rat), (3 : Rat))]) [] = .ok (2, b, 2, d)) ∧
    (∃ svg, render_svg [] (.list []) [] [] [] (0, 0, 0, 5) = .ok svg) := by
  refine ⟨by simp, .inl (by norm_num), ?_, ?_⟩
  · exact claim_C8_degenerate_geometry_guards.2.2.2.1 2 [((2 : Rat), (3 : Rat))] []
      (by simp) (by intro p hp; rw [List.mem_singleton] at hp; rw [hp])
      (by intro o ho; cases ho) (by intro o ho; cases ho)
  · exact claim_C8_degenerate_geometry_guards.2.2.2.2.2 [] [] [] [] [] 0 0 0 5
      (by intro pr hpr; cases hpr) (by intro s hs; cases hs)
      (by intro dr hdr; cases hdr) (by intro w hw; cases hw)
      (by intro o ho; cases ho) (.inl (by norm_num))

/-- The loop keeps the records extracted from the longest prefix of
exception-free items, and reports the exception of the first failing item
(if any). -/
lemma extractLoop_eq {α : Type} (f : Val → Except String (Option α))
    (items : List Val) (acc : List α) :
    extractLoop f items acc =
      (acc ++ (items.takeWhile (fun v => exOk (f v))).filterMap (fun v => exVal (f v)),
       ((items.dropWhile (fun v => exOk (f v))).head?).bind (fun v => errOf (f v))) := by
  induction items generalizing acc with
  | nil => simp [extractLoop]
  | cons v vs ih =>
    cases hf : f v with
    | ok o =>
      cases o with
      | some r =>
        simp [extractLoop, hf, ih, List.takeWhile_cons, List.dropWhile_cons, exOk, exVal]
      | none =>
        simp [extractLoop, hf, ih, List.takeWhile_cons, List.dropWhile_cons, exOk, exVal]
    | error e =>
      simp [extractLoop, hf, List.takeWhile_cons, List.dropWhile_cons, exOk, errOf]

/-- The shared extractor wrapper on a document whose collection entry is a
list: result and log as functions of the first failing item. -/
lemma extractKind_eq {α : Type} (key logMsg : String)
    (f : Val → Except String (Option α)) (j : Val) (items : List Val)
    (h : pyGet j key (.list []) = .ok (.list items)) :
    extractKind key logMsg f j =
      ((items.takeWhile (fun v => exOk (f v))).filterMap (fun v => exVal (f v)),
       match ((items.dropWhile (fun v => exOk (f v))).head?).bind (fun v => errOf (f v)) with
       | none => []
       | some e => [.error (logMsg ++ e)]) := by
  unfold extractKind
  rw [h]
  show (match extractLoop f items [] with
    | (acc, none) => (acc, ([] : List Log))
    | (acc, some e) => (acc, [Log.error (logMsg ++ e)])) = _
  rw [extractLoop_eq]
  cases ((items.dropWhile (fun v => exOk (f v))).head?).bind (fun v => errOf (f v)) with
  | none => simp
  | some e => simp

/-- `get` on a dict value never raises. -/
lemma pyGet_dict (kvs : List (String × Val)) (k : String) (dflt : Val) :
    pyGet (.dict kvs) k dflt =
      .ok (((kvs.find? (fun kv => kv.1 == k)).map Prod.snd).getD dflt) := by
  cases hf : kvs.find? (fun kv => kv.1 == k) <;> simp [pyGet, hf]

lemma length_lt_of_getElem? {l : List Val} {i : Nat} {x : Val}
    (h : l[i]? = some x) : i < l.length :=
  (List.getElem?_eq_some_iff.mp h).1

/-- An exception-free door iteration whose transform has entries at indices
12 and 13 produces a record positioned exactly there. -/
lemma extractOneDoor_shape {d : Val} {t : List Val} {x y : Val}
    (ht : pyGet d "transform" (.list []) = .ok (.list t))
    (hx : t[12]? = some x) (hy : t[13]? = some y)
    (hok : exOk (extractOneDoor d) = true) :
    ∃ w op, extractOneDoor d = .ok (some ⟨x, y, w, op⟩) := by
  have h12 : 12 ≤ t.length := le_of_lt (length_lt_of_getElem? hx)
  rcases d with q | s | b | xs | kvs
  · simp [pyGet] at ht
  · simp [pyGet] at ht
  · simp [pyGet] at ht
  · simp [pyGet] at ht
  have e12 : pyIndex (.list t) 12 = .ok x := by simp [pyIndex, hx]
  have e13 : pyIndex (.list t) 13 = .ok y := by simp [pyIndex, hy]
  unfold extractOneDoor at hok ⊢
  rw [ht] at hok ⊢
  simp only [show pyLen (.list t) = Except.ok t.length from rfl, bind_ok_eq] at hok ⊢
  rw [if_pos h12] at hok ⊢
  simp only [e12, e13, pyGet_dict, bind_ok_eq] at hok ⊢
  set D := ((kvs.find? (fun kv => kv.1 == "dimensions")).map Prod.snd).getD
    (Val.list [.num 0, .num 0, .num 0]) with hD
  set C := ((kvs.find? (fun kv => kv.1 == "category")).map Prod.snd).getD
    (Val.dict []) with hC
  rcases hw : widthFromDims D (4/5) with e | w
  · rw [hw] at hok
    simp [bind_error_eq, exOk] at hok
  · rw [hw] at hok
    simp only [bind_ok_eq] at hok ⊢
    rcases hc : pyGet C "door" (.dict []) with e | cd
    · rw [hc] at hok
      simp [bind_error_eq, exOk] at hok
    · rw [hc] at hok
      simp only [bind_ok_eq] at hok ⊢
      rcases ho : pyGet cd "isOpen" (.bool false) with e | op
      · rw [ho] at hok
        simp [bind_error_eq, exOk] at hok
      · simp only [bind_ok_eq] at hok ⊢
        exact ⟨w, op, rfl⟩

/-- An exception-free window iteration whose transform has entries at
indices 12 and 13 produces a record positioned exactly there. -/
lemma extractOneWindow_shape {d : Val} {t : List Val} {x y : Val}
    (ht : pyGet d "transform" (.list []) = .ok (.list t))
    (hx : t[12]? = some x) (hy : t[13]? = some y)
    (hok : exOk (extractOneWindow d) = true) :
    ∃ w, extractOneWindow d = .ok (some ⟨x, y, w⟩) := by
  have h12 : 12 ≤ t.length := le_of_lt (length_lt_of_getElem? hx)
  rcases d with q | s | b | xs | kvs
  · simp [pyGet] at ht
  · simp [pyGet] at ht
  · simp [pyGet] at ht
  · simp [pyGet] at ht
  have e12 : pyIndex (.list t) 12 = .ok x := by simp [pyIndex, hx]
  have e13 : pyIndex (.list t) 13 = .ok y := by simp [pyIndex, hy]
  unfold extractOneWindow at hok ⊢
  rw [ht] at hok ⊢
  simp only [show pyLen (.list t) = Except.ok t.length from rfl, bind_ok_eq] at hok ⊢
  rw [if_pos h12] at hok ⊢
  simp only [e12, e13, pyGet_dict, bind_ok_eq] at hok ⊢
  set D := ((kvs.find? (fun kv => kv.1 == "dimensions")).map Prod.snd).getD
    (Val.list [.num 0, .num 0, .num 0]) with hD
  rcases hw : widthFromDims D 1 with e | w
  · rw [hw] at hok
    simp [bind_error_eq, exOk] at hok
  · simp only [bind_ok_eq] at hok ⊢
    exact ⟨w, rfl⟩

/-- An exception-free object iteration whose transform has entries at
indices 12 and 13 produces a record positioned exactly there. -/
lemma extractOneObject_shape {d : Val} {t : List Val} {x y : Val}
    (ht : pyGet d "transform" (.list []) = .ok (.list t))
    (hx : t[12]? = some x) (hy : t[13]? = some y)
    (hok : exOk (extractOneObject d) = true) :
    ∃ w dp ty, extractOneObject d = .ok (some ⟨x, y, w, dp, ty⟩) := by
  have h12 : 12 ≤ t.length := le_of_lt (length_lt_of_getElem? hx)
  rcases d with q | s | b | xs | kvs
  · simp [pyGet] at ht
  · simp [pyGet] at ht
  · simp [pyGet] at ht
  · simp [pyGet] at ht
  have e12 : pyIndex (.list t) 12 = .ok x := by simp [pyIndex, hx]
  have e13 : pyIndex (.list t) 13 = .ok y := by simp [pyIndex, hy]
  unfold extractOneObject at hok ⊢
  rw [ht] at hok ⊢
  simp only [show pyLen (.list t) = Except.ok t.length from rfl, bind_ok_eq] at hok ⊢
  rw [if_pos h12] at hok ⊢
  simp only [e12, e13, pyGet_dict, bind_ok_eq] at hok ⊢
  set D := ((kvs.find? (fun kv => kv.1 == "dimensions")).map Prod.snd).getD
    (Val.list [.num 0, .num 0, .num 0]) with hD
  set C := ((kvs.find? (fun kv => kv.1 == "category")).map Prod.snd).getD
    (Val.dict []) with hC
  rcases hw : widthFromDims D (1/2) with e | w
  · rw [hw] at hok
    simp [bind_error_eq, exOk] at hok
  · rw [hw] at hok
    simp only [bind_ok_eq] at hok ⊢
    rcases hdl : pyLen D with e | dimLen
    · rw [hdl] at hok
      simp [bind_error_eq, exOk] at hok
    · rw [hdl] at hok
      simp only [bind_ok_eq] at hok ⊢
      rcases hdp : depthFromDims D dimLen with e | dp
      · rw [hdp] at hok
        simp [bind_error_eq, exOk] at hok
      · rw [hdp] at hok
        simp only [bind_ok_eq] at hok ⊢
        rcases hcat : firstCategoryKey C with e | ty
        · rw [hcat] at hok
          simp [bind_error_eq, exOk] at hok
        · simp only [bind_ok_eq] at hok ⊢
          exact ⟨w, dp, ty, rfl⟩

/-- When every item of a collection extracts without an exception, the
extractor returns all produced records, in order, with no log. -/
lemma extractKind_all_ok {α : Type} (key logMsg : String)
    (f : Val → Except String (Option α)) (j : Val) (items : List Val)
    (h : pyGet j key (.list []) = .ok (.list items))
    (hall : ∀ v ∈ items, exOk (f v) = true) :
    extractKind key logMsg f j = (items.filterMap (fun v => exVal (f v)), []) := by
  rw [extractKind_eq key logMsg f j items h]
  rw [List.takeWhile_eq_self_iff.mpr hall, List.dropWhile_eq_nil_iff.mpr hall]
  rfl

/-- C4 (amended): a door/window/object record whose `transform` entries at
indices 12 and 13 exist — i.e. the transform has length at least 14, not
merely the guard's 12 — appears in the output with position exactly
`(transform[12], transform[13])`, provided every record of that collection
extracts without an exception. -/
theorem claim_C4_transform_position (j : Val) :
    (∀ (d : Val) (items t : List Val) (x y : Val),
      pyGet j "doors" (.list []) = .ok (.list items) →
      (∀ v ∈ items, exOk (extractOneDoor v) = true) →
      d ∈ items →
      pyGet d "transform" (.list []) = .ok (.list t) →
      t[12]? = some x → t[13]? = some y →
      ∃ r ∈ (extract_doors j).1, r.x = x ∧ r.y = y) ∧
    (∀ (d : Val) (items t : List Val) (x y : Val),
      pyGet j "windows" (.list []) = .ok (.list items) →
      (∀ v ∈ items, exOk (extractOneWindow v) = true) →
      d ∈ items →
      pyGet d "transform" (.list []) = .ok (.list t) →
      t[12]? = some x → t[13]? = some y →
      ∃ r ∈ (extract_windows j).1, r.x = x ∧ r.y = y) ∧
    (∀ (d : Val) (items t : List Val) (x y : Val),
      pyGet j "objects" (.list []) = .ok (.list items) →
      (∀ v ∈ items, exOk (extractOneObject v) = true) →
      d ∈ items →
      pyGet d "transform" (.list []) = .ok (.list t) →
      t[12]? = some x → t[13]? = some y →
      ∃ r ∈ (extract_objects j).1, r.x = x ∧ r.y = y) := by
  refine ⟨?_, ?_, ?_⟩
  · intro d items t x y hj hall hd ht hx hy
    obtain ⟨w, op, hshape⟩ := extractOneDoor_shape ht hx hy (hall d hd)
    have hkind := extractKind_all_ok "doors" "Error extracting doors: "
      extractOneDoor j items hj hall
    refine ⟨⟨x, y, w, op⟩, ?_, rfl, rfl⟩
    show _ ∈ (extract_doors j).1
    unfold extract_doors
    rw [hkind]
    exact List.mem_filterMap.mpr ⟨d, hd, by rw [hshape]; rfl⟩
  · intro d items t x y hj hall hd ht hx hy
    obtain ⟨w, hshape⟩ := extractOneWindow_shape ht hx hy (hall d hd)
    have hkind := extractKind_all_ok "windows" "Error extracting windows: "
      extractOneWindow j items hj hall
    refine ⟨⟨x, y, w⟩, ?_, rfl, rfl⟩
    show _ ∈ (extract_windows j).1
    unfold extract_windows
    rw [hkind]
    exact List.mem_filterMap.mpr ⟨d, hd, by rw [hshape]; rfl⟩
  · intro d items t x y hj hall hd ht hx hy
    obtain ⟨w, dp, ty, hshape⟩ := extractOneObject_shape ht hx hy (hall d hd)
    have hkind := extractKind_all_ok "objects" "Error extracting objects: "
      extractOneObject j items hj hall
    refine ⟨⟨x, y, w, dp, ty⟩, ?_, rfl, rfl⟩
    show _ ∈ (extract_objects j).1
    unfold extract_objects
    rw [hkind]
    exact List.mem_filterMap.mpr ⟨d, hd, by rw [hshape]; rfl⟩

/-- C4 counterexample: the record in `docC4` has a transform of length 12
(satisfying the claim's `length >= 12` premise), yet it does not appear in
the output — the doors collection comes back empty with a logged
`IndexError`. -/
theorem claim_C4_counterexample :
    12 ≤ (List.replicate 12 (Val.num 0)).length ∧
    pyGet docC4 "doors" (.list []) =
      .ok (.list [.dict [("transform", .list (List.replicate 12 (.num 0)))]]) ∧
    (extract_doors docC4).1 = [] ∧
    (extract_doors docC4).2 ≠ [] := by
  refine ⟨by simp, rfl, rfl, ?_⟩
  intro h
  exact absurd (congrArg List.length h) (by decide)

/-- Witness for C4 at a concrete document holding one well-formed door. -/
theorem claim_C4_transform_position_witness :
    (pyGet docC4W "doors" (.list []) = .ok (.list [goodDoor]) ∧
      (∀ v ∈ [goodDoor], exOk (extractOneDoor v) = true) ∧
      goodDoor ∈ [goodDoor] ∧
      pyGet goodDoor "transform" (.list []) = .ok (.list (List.replicate 16 (.num 2))) ∧
      (List.replicate 16 (Val.num 2))[12]? = some (.num 2) ∧
      (List.replicate 16 (Val.num 2))[13]? = some (.num 2)) ∧
    (∃ r ∈ (extract_doors docC4W).1, r.x = Val.num 2 ∧ r.y = Val.num 2) := by
  have h1 : pyGet docC4W "doors" (.list []) = .ok (.list [goodDoor]) := rfl
  have h2 : ∀ v ∈ [goodDoor], exOk (extractOneDoor v) = true := by
    intro v hv
    rw [List.mem_singleton] at hv
    rw [hv]
    rfl
  have h3 : goodDoor ∈ [goodDoor] := List.mem_singleton.mpr rfl
  have h4 : pyGet goodDoor "transform" (.list []) =
      .ok (.list (List.replicate 16 (.num 2))) := rfl
  have h5 : (List.replicate 16 (Val.num 2))[12]? = some (.num 2) := rfl
  have h6 : (List.replicate 16 (Val.num 2))[13]? = some (.num 2) := rfl
  exact ⟨⟨h1, h2, h3, h4, h5, h6⟩,
    (claim_C4_transform_position docC4W).1 goodDoor [goodDoor]
      (List.replicate 16 (.num 2)) (.num 2) (.num 2) h1 h2 h3 h4 h5 h6⟩

/-- C2 (amended): extraction is isolated per element kind — each extractor
reads only its own collection entry, so an exception while extracting one
kind cannot affect the others — and every extractor catches its exception,
logs it at error level and returns instead of raising (the extractors are
total). What a failing kind returns differs per kind: the doors, windows
and objects loops keep the records successfully extracted before the
failing item (possibly, but not necessarily, the empty list), while the
floor boundary's `except` discards its partially built list and returns the
empty list. Sections have no extraction loop of their own: their lookup on
a dict document cannot raise. -/
theorem claim_C2_isolation_and_degradation :
    (∀ d1 d2 : Val, pyGet d1 "windows" (.list []) = pyGet d2 "windows" (.list []) →
      extract_windows d1 = extract_windows d2) ∧
    (∀ d1 d2 : Val, pyGet d1 "objects" (.list []) = pyGet d2 "objects" (.list []) →
      extract_objects d1 = extract_objects d2) ∧
    (∀ d1 d2 : Val, pyGet d1 "doors" (.list []) = pyGet d2 "doors" (.list []) →
      extract_doors d1 = extract_doors d2) ∧
    (∀ d1 d2 : Val, pyGet d1 "floors" (.list []) = pyGet d2 "floors" (.list []) →
      extract_floor_boundary d1 = extract_floor_boundary d2) ∧
    (∀ (j : Val) (items : List Val) (e : String),
      pyGet j "doors" (.list []) = .ok (.list items) →
      ((items.dropWhile (fun v => exOk (extractOneDoor v))).head?).bind
        (fun v => errOf (extractOneDoor v)) = some e →
      extract_doors j =
        ((items.takeWhile (fun v => exOk (extractOneDoor v))).filterMap
          (fun v => exVal (extractOneDoor v)),
         [.error ("Error extracting doors: " ++ e)])) ∧
    (∀ (j : Val) (items : List Val) (e : String),
      pyGet j "windows" (.list []) = .ok (.list items) →
      ((items.dropWhile (fun v => exOk (extractOneWindow v))).head?).bind
        (fun v => errOf (extractOneWindow v)) = some e →
      extract_windows j =
        ((items.takeWhile (fun v => exOk (extractOneWindow v))).filterMap
          (fun v => exVal (extractOneWindow v)),
         [.error ("Error extracting windows: " ++ e)])) ∧
    (∀ (j : Val) (items : List Val) (e : String),
      pyGet j "objects" (.list []) = .ok (.list items) →
      ((items.dropWhile (fun v => exOk (extractOneObject v))).head?).bind
        (fun v => errOf (extractOneObject v)) = some e →
      extract_objects j =
        ((items.takeWhile (fun v => exOk (extractOneObject v))).filterMap
          (fun v => exVal (extractOneObject v)),
         [.error ("Error extracting objects: " ++ e)])) ∧
    (∀ (j : Val) (e : String),
      floorBoundaryBody j = .error e →
      extract_floor_boundary j =
        ([], [.error ("Error extracting floor boundary: " ++ e)])) ∧
    (∀ kvs : List (String × Val), ∃ v,
      pyGet (.dict kvs) "sections" (.list []) = .ok v) := by
  refine ⟨?_, ?_, ?_, ?_, ?_, ?_, ?_, ?_, ?_⟩
  · intro d1 d2 h
    unfold extract_windows extractKind
    rw [h]
  · intro d1 d2 h
    unfold extract_objects extractKind
    rw [h]
  · intro d1 d2 h
    unfold extract_doors extractKind
    rw [h]
  · intro d1 d2 h
    have hb : floorBoundaryBody d1 = floorBoundaryBody d2 := by
      unfold floorBoundaryBody
      rw [h]
    unfold extract_floor_boundary
    rw [hb]
  · intro j items e h hdrop
    show extractKind "doors" "Error extracting doors: " extractOneDoor j = _
    rw [extractKind_eq "doors" "Error extracting doors: " extractOneDoor j items h, hdrop]
  · intro j items e h hdrop
    show extractKind "windows" "Error extracting windows: " extractOneWindow j = _
    rw [extractKind_eq "windows" "Error extracting windows: " extractOneWindow j items h,
      hdrop]
  · intro j items e h hdrop
    show extractKind "objects" "Error extracting objects: " extractOneObject j = _
    rw [extractKind_eq "objects" "Error extracting objects: " extractOneObject j items h,
      hdrop]
  · intro j e h
    unfold extract_floor_boundary
    rw [h]
  · intro kvs
    exact ⟨_, pyGet_dict kvs "sections" (.list [])⟩

/-- C2 counterexample: on `docC2` the doors extraction fails (the error is
logged), yet the result is not the empty collection — the record extracted
before the failure is kept. -/
theorem claim_C2_counterexample :
    (extract_doors docC2).2 =
      [.error "Error extracting doors: AttributeError: object has no attribute get"] ∧
    (extract_doors docC2).1 ≠ [] := by
  refine ⟨rfl, ?_⟩
  intro h
  exact absurd (congrArg List.length h) (by decide)

/-- Witness for C2 at concrete documents: `docC2` and a bare dict agree on
the `windows` entry (so their window extractions agree), the failing doors
collection of `docC2` degrades to its one-record prefix with the
`AttributeError` logged, and the failing floor boundary of `docC2F`
discards its partial list, returning `[]` with the `TypeError` logged. -/
theorem claim_C2_isolation_and_degradation_witness :
    (pyGet docC2 "windows" (.list []) = pyGet (Val.dict []) "windows" (.list [])) ∧
    (extract_windows docC2 = extract_windows (Val.dict [])) ∧
    (pyGet docC2 "doors" (.list []) = .ok (.list [goodDoor, .num 7])) ∧
    ((([goodDoor, Val.num 7].dropWhile (fun v => exOk (extractOneDoor v))).head?).bind
        (fun v => errOf (extractOneDoor v)) =
      some "AttributeError: object has no attribute get") ∧
    (extract_doors docC2 =
      (([goodDoor, Val.num 7].takeWhile (fun v => exOk (extractOneDoor v))).filterMap
        (fun v => exVal (extractOneDoor v)),
       [.error ("Error extracting doors: " ++ "AttributeError: object has no attribute get")])) ∧
    (floorBoundaryBody docC2F = .error "TypeError: object has no len") ∧
    (extract_floor_boundary docC2F =
      ([], [.error ("Error extracting floor boundary: " ++ "TypeError: object has no len")])) :=
  ⟨rfl,
   claim_C2_isolation_and_degradation.1 docC2 (Val.dict []) rfl,
   rfl, rfl,
   claim_C2_isolation_and_degradation.2.2.2.2.1 docC2 [goodDoor, .num 7]
     "AttributeError: object has no attribute get" rfl rfl,
   rfl,
   claim_C2_isolation_and_degradation.2.2.2.2.2.2.2.1 docC2F
     "TypeError: object has no len" rfl⟩

/-- C3 (amended): a record with no `dimensions` entry receives the
substituted default `[0, 0, 0]`, which is truthy, so the extracted width is
0 (and the object depth is 0) — not the type-specific default. The
type-specific defaults (door 0.8, window 1.0, object width 0.5 and depth
0.5) apply only when `dimensions` is present but falsy (e.g. the empty
list). -/
theorem claim_C3_dimension_defaults :
    (∀ (kvs : List (String × Val)) (t : List Val) (x y : Val),
      kvs.find? (fun kv => kv.1 == "dimensions") = none →
      pyGet (.dict kvs) "transform" (.list []) = .ok (.list t) →
      t[12]? = some x → t[13]? = some y →
      exOk (extractOneDoor (.dict kvs)) = true →
      ∃ op, extractOneDoor (.dict kvs) = .ok (some ⟨x, y, .num 0, op⟩)) ∧
    (∀ (kvs : List (String × Val)) (t : List Val) (x y : Val) (k0 : String),
      kvs.find? (fun kv => kv.1 == "dimensions") = some (k0, .list []) →
      pyGet (.dict kvs) "transform" (.list []) = .ok (.list t) →
      t[12]? = some x → t[13]? = some y →
      exOk (extractOneDoor (.dict kvs)) = true →
      ∃ op, extractOneDoor (.dict kvs) = .ok (some ⟨x, y, .num (4/5), op⟩)) ∧
    (∀ (kvs : List (String × Val)) (t : List Val) (x y : Val),
      kvs.find? (fun kv => kv.1 == "dimensions") = none →
      pyGet (.dict kvs) "transform" (.list []) = .ok (.list t) →
      t[12]? = some x → t[13]? = some y →
      extractOneWindow (.dict kvs) = .ok (some ⟨x, y, .num 0⟩)) ∧
    (∀ (kvs : List (String × Val)) (t : List Val) (x y : Val) (k0 : String),
      kvs.find? (fun kv => kv.1 == "dimensions") = some (k0, .list []) →
      pyGet (.dict kvs) "transform" (.list []) = .ok (.list t) →
      t[12]? = some x → t[13]? = some y →
      extractOneWindow (.dict kvs) = .ok (some ⟨x, y, .num 1⟩)) ∧
    (∀ (kvs : List (String × Val)) (t : List Val) (x y : Val),
      kvs.find? (fun kv => kv.1 == "dimensions") = none →
      pyGet (.dict kvs) "transform" (.list []) = .ok (.list t) →
      t[12]? = some x → t[13]? = some y →
      exOk (extractOneObject (.dict kvs)) = true →
      ∃ ty, extractOneObject (.dict kvs) = .ok (some ⟨x, y, .num 0, .num 0, ty⟩)) ∧
    (∀ (kvs : List (String × Val)) (t : List Val) (x y : Val) (k0 : String),
      kvs.find? (fun kv => kv.1 == "dimensions") = some (k0, .list []) →
      pyGet (.dict kvs) "transform" (.list []) = .ok (.list t) →
      t[12]? = some x → t[13]? = some y →
      exOk (extractOneObject (.dict kvs)) = true →
      ∃ ty, extractOneObject (.dict kvs) =
        .ok (some ⟨x, y, .num (1/2), .num (1/2), ty⟩)) := by
  refine ⟨?_, ?_, ?_, ?_, ?_, ?_⟩
  · intro kvs t x y hfind ht hx hy hok
    have h12 : 12 ≤ t.length := le_of_lt (length_lt_of_getElem? hx)
    have e12 : pyIndex (.list t) 12 = .ok x := by simp [pyIndex, hx]
    have e13 : pyIndex (.list t) 13 = .ok y := by simp [pyIndex, hy]
    have hD : ((kvs.find? (fun kv => kv.1 == "dimensions")).map Prod.snd).getD
        (Val.list [.num 0, .num 0, .num 0]) = .list [.num 0, .num 0, .num 0] := by
      rw [hfind]
      rfl
    unfold extractOneDoor at hok ⊢
    rw [ht] at hok ⊢
    simp only [show pyLen (.list t) = Except.ok t.length from rfl, bind_ok_eq] at hok ⊢
    rw [if_pos h12] at hok ⊢
    simp only [e12, e13, pyGet_dict, bind_ok_eq, hD,
      show widthFromDims (Val.list [.num 0, .num 0, .num 0]) (4/5) =
        Except.ok (.num 0) from rfl] at hok ⊢
    set C := ((kvs.find? (fun kv => kv.1 == "category")).map Prod.snd).getD
      (Val.dict []) with hC
    rcases hc : pyGet C "door" (.dict []) with e | cd
    · rw [hc] at hok
      simp [bind_error_eq, exOk] at hok
    · rw [hc] at hok
      simp only [bind_ok_eq] at hok ⊢
      rcases ho : pyGet cd "isOpen" (.bool false) with e | op
      · rw [ho] at hok
        simp [bind_error_eq, exOk] at hok
      · simp only [bind_ok_eq] at hok ⊢
        exact ⟨op, rfl⟩
  · intro kvs t x y k0 hfind ht hx hy hok
    have h12 : 12 ≤ t.length := le_of_lt (length_lt_of_getElem? hx)
    have e12 : pyIndex (.list t) 12 = .ok x := by simp [pyIndex, hx]
    have e13 : pyIndex (.list t) 13 = .ok y := by simp [pyIndex, hy]
    have hD : ((kvs.find? (fun kv => kv.1 == "dimensions")).map Prod.snd).getD
        (Val.list [.num 0, .num 0, .num 0]) = .list [] := by
      rw [hfind]
      rfl
    unfold extractOneDoor at hok ⊢
    rw [ht] at hok ⊢
    simp only [show pyLen (.list t) = Except.ok t.length from rfl, bind_ok_eq] at hok ⊢
    rw [if_pos h12] at hok ⊢
    simp only [e12, e13, pyGet_dict, bind_ok_eq, hD,
      show widthFromDims (Val.list []) (4/5) =
        Except.ok (.num (4/5)) from rfl] at hok ⊢
    set C := ((kvs.find? (fun kv => kv.1 == "category")).map Prod.snd).getD
      (Val.dict []) with hC
    rcases hc : pyGet C "door" (.dict []) with e | cd
    · rw [hc] at hok
      simp [bind_error_eq, exOk] at hok
    · rw [hc] at hok
      simp only [bind_ok_eq] at hok ⊢
      rcases ho : pyGet cd "isOpen" (.bool false) with e | op
      · rw [ho] at hok
        simp [bind_error_eq, exOk] at hok
      · simp only [bind_ok_eq] at hok ⊢
        exact ⟨op, rfl⟩
  · intro kvs t x y hfind ht hx hy
    have h12 : 12 ≤ t.length := le_of_lt (length_lt_of_getElem? hx)
    have e12 : pyIndex (.list t) 12 = .ok x := by simp [pyIndex, hx]
    have e13 : pyIndex (.list t) 13 = .ok y := by simp [pyIndex, hy]
    have hD : ((kvs.find? (fun kv => kv.1 == "dimensions")).map Prod.snd).getD
        (Val.list [.num 0, .num 0, .num 0]) = .list [.num 0, .num 0, .num 0] := by
      rw [hfind]
      rfl
    unfold extractOneWindow
    rw [ht]
    simp only [show pyLen (.list t) = Except.ok t.length from rfl, bind_ok_eq]
    rw [if_pos h12]
    simp only [e12, e13, pyGet_dict, bind_ok_eq, hD,
      show widthFromDims (Val.list [.num 0, .num 0, .num 0]) 1 =
        Except.ok (.num 0) from rfl]
    rfl
  · intro kvs t x y k0 hfind ht hx hy
    have h12 : 12 ≤ t.length := le_of_lt (length_lt_of_getElem? hx)
    have e12 : pyIndex (.list t) 12 = .ok x := by simp [pyIndex, hx]
    have e13 : pyIndex (.list t) 13 = .ok y := by simp [pyIndex, hy]
    have hD : ((kvs.find? (fun kv => kv.1 == "dimensions")).map Prod.snd).getD
        (Val.list [.num 0, .num 0, .num 0]) = .list [] := by
      rw [hfind]
      rfl
    unfold extractOneWindow
    rw [ht]
    simp only [show pyLen (.list t) = Except.ok t.length from rfl, bind_ok_eq]
    rw [if_pos h12]
    simp only [e12, e13, pyGet_dict, bind_ok_eq, hD,
      show widthFromDims (Val.list []) 1 = Except.ok (.num 1) from rfl]
    rfl
  · intro kvs t x y hfind ht hx hy hok
    have h12 : 12 ≤ t.length := le_of_lt (length_lt_of_getElem? hx)
    have e12 : pyIndex (.list t) 12 = .ok x := by simp [pyIndex, hx]
    have e13 : pyIndex (.list t) 13 = .ok y := by simp [pyIndex, hy]
    have hD : ((kvs.find? (fun kv => kv.1 == "dimensions")).map Prod.snd).getD
        (Val.list [.num 0, .num 0, .num 0]) = .list [.num 0, .num 0, .num 0] := by
      rw [hfind]
      rfl
    unfold extractOneObject at hok ⊢
    rw [ht] at hok ⊢
    simp only [show pyLen (.list t) = Except.ok t.length from rfl, bind_ok_eq] at hok ⊢
    rw [if_pos h12] at hok ⊢
    simp only [e12, e13, pyGet_dict, bind_ok_eq, hD,
      show widthFromDims (Val.list [.num 0, .num 0, .num 0]) (1/2) =
        Except.ok (.num 0) from rfl,
      show pyLen (Val.list [.num 0, .num 0, .num 0]) = Except.ok 3 from rfl,
      show depthFromDims (Val.list [.num 0, .num 0, .num 0]) 3 =
        Except.ok (.num 0) from rfl] at hok ⊢
    set C := ((kvs.find? (fun kv => kv.1 == "category")).map Prod.snd).getD
      (Val.dict []) with hC
    rcases hcat : firstCategoryKey C with e | ty
    · rw [hcat] at hok
      simp [bind_error_eq, exOk] at hok
    · simp only [bind_ok_eq] at hok ⊢
      exact ⟨ty, rfl⟩
  · intro kvs t x y k0 hfind ht hx hy hok
    have h12 : 12 ≤ t.length := le_of_lt (length_lt_of_getElem? hx)
    have e12 : pyIndex (.list t) 12 = .ok x := by simp [pyIndex, hx]
    have e13 : pyIndex (.list t) 13 = .ok y := by simp [pyIndex, hy]
    have hD : ((kvs.find? (fun kv => kv.1 == "dimensions")).map Prod.snd).getD
        (Val.list [.num 0, .num 0, .num 0]) = .list [] := by
      rw [hfind]
      rfl
    unfold extractOneObject at hok ⊢
    rw [ht] at hok ⊢
    simp only [show pyLen (.list t) = Except.ok t.length from rfl, bind_ok_eq] at hok ⊢
    rw [if_pos h12] at hok ⊢
    simp only [e12, e13, pyGet_dict, bind_ok_eq, hD,
      show widthFromDims (Val.list []) (1/2) = Except.ok (.num (1/2)) from rfl,
      show pyLen (Val.list []) = Except.ok 0 from rfl,
      show depthFromDims (Val.list []) 0 = Except.ok (.num (1/2)) from rfl] at hok ⊢
    set C := ((kvs.find? (fun kv => kv.1 == "category")).map Prod.snd).getD
      (Val.dict []) with hC
    rcases hcat : firstCategoryKey C with e | ty
    · rw [hcat] at hok
      simp [bind_error_eq, exOk] at hok
    · simp only [bind_ok_eq] at hok ⊢
      exact ⟨ty, rfl⟩

/-- C3 counterexample: on `docC3` the door record has a 16-entry transform
and no `dimensions`, and the extracted width is 0 — not the claimed default
0.8. -/
theorem claim_C3_counterexample :
    (extract_doors docC3).1 = [⟨.num 0, .num 0, .num 0, .bool false⟩] ∧
    Val.num 0 ≠ Val.num (4/5) := by
  refine ⟨rfl, ?_⟩
  intro h
  injection h with h'
  exact absurd h' (by norm_num)

/-- Witness for C3 at a concrete dimension-free record and a concrete
record with an explicitly empty `dimensions` list. -/
theorem claim_C3_dimension_defaults_witness :
    ([(("transform" : String), Val.list (List.replicate 16 (.num 0)))].find?
        (fun kv => kv.1 == "dimensions") = none) ∧
    (∃ op, extractOneDoor (.dict [("transform", .list (List.replicate 16 (.num 0)))]) =
      .ok (some ⟨.num 0, .num 0, .num 0, op⟩)) ∧
    ([(("transform" : String), Val.list (List.replicate 16 (.num 0))),
        ("dimensions", Val.list [])].find? (fun kv => kv.1 == "dimensions") =
      some ("dimensions", .list [])) ∧
    (∃ op, extractOneDoor (.dict [("transform", .list (List.replicate 16 (.num 0))),
        ("dimensions", .list [])]) =
      .ok (some ⟨.num 0, .num 0, .num (4/5), op⟩)) := by
  refine ⟨rfl, ?_, rfl, ?_⟩
  · exact claim_C3_dimension_defaults.1
      [("transform", .list (List.replicate 16 (.num 0)))]
      (List.replicate 16 (.num 0)) (.num 0) (.num 0) rfl rfl rfl rfl rfl
  · exact claim_C3_dimension_defaults.2.1
      [("transform", .list (List.replicate 16 (.num 0))), ("dimensions", .list [])]
      (List.replicate 16 (.num 0)) (.num 0) (.num 0) "dimensions" rfl rfl rfl rfl rfl

/-- The corner loop of `_extract_floor_boundary` on corners that all have
at least two components appends every projection in input order. -/
lemma floorBoundaryFold (corners : List Val)
    (h : ∀ c ∈ corners, ∃ x y r', c = .list (x :: y :: r')) (acc : List (Val × Val)) :
    (corners.foldlM (fun acc c => do
      match ← cornerPoint c with
      | some p => pure (acc ++ [p])
      | none => pure acc) acc : Except String (List (Val × Val))) =
    .ok (acc ++ corners.map cornerXY) := by
  induction corners generalizing acc with
  | nil => simp [pure_ok_eq]
  | cons c cs ih =>
    obtain ⟨x, y, r', rfl⟩ := h c (List.mem_cons_self c cs)
    have hcp : cornerPoint (.list (x :: y :: r')) = .ok (some (x, y)) := by
      unfold cornerPoint
      simp only [show pyLen (.list (x :: y :: r')) =
        Except.ok (x :: y :: r').length from rfl, bind_ok_eq]
      rw [if_pos (by simp)]
      simp [pyIndex, bind_ok_eq, pure_ok_eq]
    rw [List.foldlM_cons, hcp]
    simp only [bind_ok_eq, pure_bind]
    rw [ih (fun d hd => h d (List.mem_cons_of_mem _ hd)) (acc ++ [(x, y)])]
    simp [cornerXY]

/-- C5: on a document whose first floor has a (non-empty) corner list in
which every corner has at least two components, the extracted floor
boundary has exactly one point per corner, in input order, each equal to
the corner's first two components. -/
theorem claim_C5_floor_boundary_exact (j floor0 : Val) (rest corners : List Val)
    (hfloors : pyGet j "floors" (.list []) = .ok (.list (floor0 :: rest)))
    (hcorners : pyGet floor0 "polygonCorners" (.list []) = .ok (.list corners))
    (hne : corners ≠ [])
    (hshape : ∀ c ∈ corners, ∃ x y r', c = .list (x :: y :: r')) :
    (extract_floor_boundary j).1.length = corners.length ∧
    ∀ i, (hi : i < corners.length) →
      ∃ x y r', corners[i]? = some (.list (x :: y :: r')) ∧
        (extract_floor_boundary j).1[i]? = some (x, y) := by
  have hbody : floorBoundaryBody j = .ok (corners.map cornerXY) := by
    unfold floorBoundaryBody
    rw [hfloors]
    simp only [bind_ok_eq]
    rw [if_neg (by simp [pyTruthy])]
    simp only [show pyIndex (.list (floor0 :: rest)) 0 = Except.ok floor0 from rfl,
      bind_ok_eq]
    rw [hcorners]
    simp only [bind_ok_eq, show pyIter (.list corners) = Except.ok corners from rfl]
    rw [floorBoundaryFold corners hshape []]
    rfl
  have hres : (extract_floor_boundary j).1 = corners.map cornerXY := by
    unfold extract_floor_boundary
    rw [hbody]
  constructor
  · rw [hres, List.length_map]
  · intro i hi
    have hgc : corners[i]? = some corners[i] := List.getElem?_eq_getElem hi
    obtain ⟨x, y, r', hc⟩ := hshape corners[i] (corners.getElem_mem hi)
    refine ⟨x, y, r', by rw [hgc, hc], ?_⟩
    rw [hres, List.getElem?_map, hgc, hc]
    rfl

/-- Witness for C5 at `docC5`. -/
theorem claim_C5_floor_boundary_exact_witness :
    (pyGet docC5 "floors" (.list []) =
      .ok (.list [.dict [("polygonCorners", .list
        [.list [.num 0, .num 0, .num 0], .list [.num 4, .num 3, .num 0]])]])) ∧
    ([Val.list [.num 0, .num 0, .num 0], Val.list [.num 4, .num 3, .num 0]] ≠ []) ∧
    ((extract_floor_boundary docC5).1.length = 2 ∧
      ∀ i, (hi : i < ([Val.list [.num 0, .num 0, .num 0],
          Val.list [.num 4, .num 3, .num 0]] : List Val).length) →
        ∃ x y r', ([Val.list [.num 0, .num 0, .num 0],
            Val.list [.num 4, .num 3, .num 0]] : List Val)[i]? =
              some (.list (x :: y :: r')) ∧
          (extract_floor_boundary docC5).1[i]? = some (x, y)) := by
  have hshape : ∀ c ∈ ([Val.list [.num 0, .num 0, .num 0],
      Val.list [.num 4, .num 3, .num 0]] : List Val), ∃ x y r', c = .list (x :: y :: r') := by
    intro c hc
    rcases List.mem_cons.mp hc with h | h
    · exact ⟨.num 0, .num 0, [.num 0], h⟩
    · rw [List.mem_singleton] at h
      exact ⟨.num 4, .num 3, [.num 0], h⟩
  exact ⟨rfl, by simp,
    claim_C5_floor_boundary_exact docC5
      (.dict [("polygonCorners", .list
        [.list [.num 0, .num 0, .num 0], .list [.num 4, .num 3, .num 0]])])
      [] [.list [.num 0, .num 0, .num 0], .list [.num 4, .num 3, .num 0]]
      rfl rfl (by simp) hshape⟩

end Floorplan
